import Mathlib

/-!
Community bundle validator: the max-Kubernetes-version annotation check.

A shallow embedding of `pkg/validation/bundle_validation.go`.

Go strings are `String` values (sequences of Unicode code points; the annotation
values and messages handled here are valid UTF-8).  A Go `error` is represented by
the text its `Error()` method returns.  `uint64` fields are natural numbers, with
the 64-bit range enforced where a number is read (`strconvParseUint`).

The package imports three libraries whose text is not part of the repository.
The parts the checker calls are embedded below from the library versions the
test file's expected strings correspond to (`github.com/blang/semver` 3.5.1 and
the `errors` package of `github.com/operator-framework/api`); what the checker
only passes around (the deprecated-API detector, the bundle's object listing,
Go's `%q` quoting) is taken as a parameter.
-/

namespace BundleValidator

/-! ## Go `strings` helpers used by the semver parser -/

/-- Go `unicode.IsSpace`. -/
def unicodeIsSpace (c : Char) : Bool :=
  let n := c.toNat
  (9 ≤ n && n ≤ 13) || n == 0x20 || n == 0x85 || n == 0xA0 || n == 0x1680 ||
    (0x2000 ≤ n && n ≤ 0x200A) || n == 0x2028 || n == 0x2029 || n == 0x202F ||
    n == 0x205F || n == 0x3000

/-- Go `strings.TrimSpace`: leading and trailing white space removed. -/
def stringsTrimSpace (s : List Char) : List Char :=
  ((s.dropWhile unicodeIsSpace).reverse.dropWhile unicodeIsSpace).reverse

/-- Go `strings.TrimPrefix(s, "v")`. -/
def stringsTrimPrefixV : List Char → List Char
  | 'v' :: rest => rest
  | s => s

/-- Cuts `s` at the first occurrence of `sep`: the text before it and the text after it. -/
def cutAt (sep : Char) : List Char → Option (List Char × List Char)
  | [] => none
  | c :: cs =>
    if c = sep then some ([], cs)
    else match cutAt sep cs with
      | none => none
      | some (before, after) => some (c :: before, after)

/-- Go `strings.SplitN(s, sep, n)` for a one-character separator and `n ≥ 0`:
at most `n` pieces, the last one holding the unsplit remainder. -/
def stringsSplitN (sep : Char) : Nat → List Char → List (List Char)
  | 0, _ => []
  | 1, s => [s]
  | n + 2, s =>
    match cutAt sep s with
    | none => [s]
    | some (before, after) => before :: stringsSplitN sep (n + 1) after

/-- Go `strings.Split(s, sep)` for a one-character separator. -/
def stringsSplit (sep : Char) : List Char → List (List Char)
  | [] => [[]]
  | c :: cs =>
    if c = sep then [] :: stringsSplit sep cs
    else match stringsSplit sep cs with
      | [] => [[c]]
      | piece :: pieces => (c :: piece) :: pieces

/-- Go `strings.ContainsAny(s, chars)`. -/
def stringsContainsAny (s chars : List Char) : Bool :=
  s.any fun c => chars.contains c

/-- Go `strings.Join(parts, ".")`. -/
def stringsJoinDot (parts : List (List Char)) : List Char :=
  List.intercalate ['.'] parts

/-! ## `github.com/blang/semver` -/

/-- The constant `numbers` of the semver package. -/
def numbers : List Char := "0123456789".data

/-- The constant `alphas` of the semver package. -/
def alphas : List Char := "abcdefghijklmnopqrstuvwxyzABCDEFGHIJKLMNOPQRSTUVWXYZ-".data

/-- The constant `alphanum` of the semver package. -/
def alphanum : List Char := alphas ++ numbers

/-- The semver helper `containsOnly`: every character of `s` is in `set`. -/
def containsOnly (s set : List Char) : Bool :=
  s.all fun c => set.contains c

/-- The semver helper `hasLeadingZeroes`.  It is only called on strings of ASCII
digits, where the byte length is the number of characters. -/
def hasLeadingZeroes (s : List Char) : Bool :=
  decide (1 < s.length) && s.head? == some '0'

/-- The value of a string of decimal digits, `none` when a character is not a digit. -/
def decimalValue (s : List Char) : Option Nat :=
  s.foldl
    (fun acc c =>
      match acc with
      | none => none
      | some v => if c.isDigit then some (10 * v + (c.toNat - '0'.toNat)) else none)
    (some 0)

/-- The type `PRVersion` of the semver package: one pre-release identifier. -/
structure PRVersion where
  VersionStr : String
  VersionNum : Nat
  IsNum : Bool
  deriving DecidableEq, Repr

/-- The type `Version` of the semver package. -/
structure Version where
  Major : Nat
  Minor : Nat
  Patch : Nat
  Pre : List PRVersion
  Build : List String
  deriving DecidableEq, Repr

/-- The method `PRVersion.Compare`: numeric identifiers sort below alphanumeric
ones, numbers by value, strings lexically. -/
def PRVersion.Compare (v o : PRVersion) : Int :=
  if v.IsNum && !o.IsNum then -1
  else if !v.IsNum && o.IsNum then 1
  else if v.IsNum && o.IsNum then
    if v.VersionNum = o.VersionNum then 0
    else if v.VersionNum > o.VersionNum then 1
    else -1
  else
    if v.VersionStr = o.VersionStr then 0
    else if o.VersionStr.data < v.VersionStr.data then 1
    else -1

/-- The loop of `Version.Compare` over the two pre-release lists, and the length
test that follows it. -/
def comparePre : List PRVersion → List PRVersion → Int
  | [], [] => 0
  | [], _ :: _ => -1
  | _ :: _, [] => 1
  | a :: as, b :: bs =>
    if a.Compare b = 0 then comparePre as bs
    else if a.Compare b = 1 then 1
    else -1

/-- The method `Version.Compare`: -1, 0 or 1. -/
def Version.Compare (v o : Version) : Int :=
  if v.Major ≠ o.Major then
    if v.Major > o.Major then 1 else -1
  else if v.Minor ≠ o.Minor then
    if v.Minor > o.Minor then 1 else -1
  else if v.Patch ≠ o.Patch then
    if v.Patch > o.Patch then 1 else -1
  else if v.Pre.length = 0 ∧ o.Pre.length = 0 then 0
  else if v.Pre.length = 0 ∧ o.Pre.length > 0 then 1
  else if v.Pre.length > 0 ∧ o.Pre.length = 0 then -1
  else comparePre v.Pre o.Pre

/-- The method `Version.GE`. -/
def Version.GE (v o : Version) : Bool :=
  decide (v.Compare o ≥ 0)

section Parser

-- `quote` stands for Go's `strconv.Quote`, the rendering of the `%q` verb.
variable (quote : String → String)

/-- Go `strconv.ParseUint(s, 10, 64)` on the strings the parser hands it, which
hold decimal digits only: the empty string is a syntax error, a value of 2^64 or
more a range error.  The error text is that of `*strconv.NumError`. -/
def strconvParseUint (s : List Char) : Except String Nat :=
  match s, decimalValue s with
  | [], _ => .error ("strconv.ParseUint: parsing " ++ quote ⟨s⟩ ++ ": invalid syntax")
  | _ :: _, none => .error ("strconv.ParseUint: parsing " ++ quote ⟨s⟩ ++ ": invalid syntax")
  | _ :: _, some v =>
    if v < 2 ^ 64 then .ok v
    else .error ("strconv.ParseUint: parsing " ++ quote ⟨s⟩ ++ ": value out of range")

/-- One of the three numeric components as `semver.Parse` reads it; `what` is
"major", "minor" or "patch" and `What` the same word capitalised. -/
def parseNumber (what What : String) (s : List Char) : Except String Nat :=
  if !containsOnly s numbers then
    .error ("Invalid character(s) found in " ++ what ++ " number " ++ quote ⟨s⟩)
  else if hasLeadingZeroes s then
    .error (What ++ " number must not contain leading zeroes " ++ quote ⟨s⟩)
  else strconvParseUint quote s

/-- The function `NewPRVersion` of the semver package. -/
def NewPRVersion (s : List Char) : Except String PRVersion :=
  if s.length = 0 then .error "Prerelease is empty"
  else if containsOnly s numbers then
    if hasLeadingZeroes s then
      .error ("Numeric PreRelease version must not contain leading zeroes " ++ quote ⟨s⟩)
    else
      match strconvParseUint quote s with
      | .error e => .error e
      | .ok num => .ok { VersionStr := "", VersionNum := num, IsNum := true }
  else if containsOnly s alphanum then
    .ok { VersionStr := ⟨s⟩, VersionNum := 0, IsNum := false }
  else .error ("Invalid character(s) found in prerelease " ++ quote ⟨s⟩)

/-- The pre-release loop of `semver.Parse`: stops at the first identifier that
does not parse. -/
def parsePrerelease : List (List Char) → Except String (List PRVersion)
  | [] => .ok []
  | p :: ps =>
    match NewPRVersion quote p with
    | .error e => .error e
    | .ok pr =>
      match parsePrerelease ps with
      | .error e => .error e
      | .ok prs => .ok (pr :: prs)

/-- The build-metadata loop of `semver.Parse`. -/
def parseBuild : List (List Char) → Except String (List String)
  | [] => .ok []
  | b :: bs =>
    if b.length = 0 then .error "Build meta data is empty"
    else if !containsOnly b alphanum then
      .error ("Invalid character(s) found in build meta data " ++ quote ⟨b⟩)
    else
      match parseBuild bs with
      | .error e => .error e
      | .ok rest => .ok (⟨b⟩ :: rest)

/-- The function `semver.Parse`. -/
def Parse (s : List Char) : Except String Version :=
  if s.length = 0 then .error "Version string empty"
  else
    match stringsSplitN '.' 3 s with
    | [p0, p1, p2] =>
      match parseNumber quote "major" "Major" p0 with
      | .error e => .error e
      | .ok major =>
        match parseNumber quote "minor" "Minor" p1 with
        | .error e => .error e
        | .ok minor =>
          let (patchStr, build) :=
            match cutAt '+' p2 with
            | some (before, after) => (before, stringsSplit '.' after)
            | none => (p2, [])
          let (patchStr, prerelease) :=
            match cutAt '-' patchStr with
            | some (before, after) => (before, stringsSplit '.' after)
            | none => (patchStr, [])
          match parseNumber quote "patch" "Patch" patchStr with
          | .error e => .error e
          | .ok patch =>
            match parsePrerelease quote prerelease with
            | .error e => .error e
            | .ok pre =>
              match parseBuild quote build with
              | .error e => .error e
              | .ok bld =>
                .ok { Major := major, Minor := minor, Patch := patch, Pre := pre, Build := bld }
    | _ => .error "No Major.Minor.Patch elements found"

/-- Appends `"0"` components until there are three (the fill loop of `ParseTolerant`). -/
def fillParts (parts : List (List Char)) : List (List Char) :=
  parts ++ List.replicate (3 - parts.length) ['0']

/-- The function `semver.ParseTolerant`: trims spaces, drops a leading `v`, fills
a missing minor or patch component with `0`, then parses strictly. -/
def ParseTolerant (s : String) : Except String Version :=
  let s := stringsTrimPrefixV (stringsTrimSpace s.data)
  let parts := stringsSplitN '.' 3 s
  if parts.length < 3 then
    if stringsContainsAny (parts.getLast?.getD []) ['+', '-'] then
      .error "Short version cannot contain PreRelease/Build meta data"
    else Parse quote (stringsJoinDot (fillParts parts))
  else Parse quote s

end Parser

/-- The quoting of `strconv.Quote` on text made of printable characters other
than the double quote and the backslash: the text between double quotes. -/
def quotePlain (s : String) : String := "\"" ++ s ++ "\""

/-! ## `github.com/operator-framework/api/pkg/validation/errors` -/

/-- The level `LevelWarn`. -/
def LevelWarn : String := "Warning"

/-- The level `LevelError`. -/
def LevelError : String := "Error"

/-- The error type `ErrorInvalidCSV`. -/
def ErrorInvalidCSV : String := "CSVFileNotValid"

/-- The error type `ErrorInvalidBundle`. -/
def ErrorInvalidBundle : String := "BundleNotValid"

/-- The type `errors.Error`.  `ErrType` is the Go field `Type`; `BadValue` is an
`interface{}` in Go and holds nil or a string wherever this package fills it. -/
structure Error where
  ErrType : String
  Level : String
  Field : String
  BadValue : Option String
  Detail : String
  deriving DecidableEq, Repr

/-- The type `errors.ManifestResult`. -/
structure ManifestResult where
  Name : String
  Errors : List Error
  Warnings : List Error
  deriving DecidableEq, Repr

/-- One round of the loop of `ManifestResult.Add`: the entry goes to `Errors` or
to `Warnings` by its level, and is dropped at any other level. -/
def ManifestResult.addOne (r : ManifestResult) (err : Error) : ManifestResult :=
  if err.Level = LevelError then { r with Errors := r.Errors ++ [err] }
  else if err.Level = LevelWarn then { r with Warnings := r.Warnings ++ [err] }
  else r

/-- The method `ManifestResult.Add(errs ...Error)`. -/
def ManifestResult.Add (r : ManifestResult) (errs : List Error) : ManifestResult :=
  errs.foldl ManifestResult.addOne r

/-- The function `errors.ErrInvalidBundle(detail, value)`. -/
def ErrInvalidBundle (detail : String) (value : Option String) : Error :=
  { ErrType := ErrorInvalidBundle, Level := LevelError, Field := "", BadValue := value,
    Detail := detail }

/-- The helper `invalidCSV` of the errors package: the CSV name goes into the
detail text, in parentheses, and the value is the empty string (whence the
`Error: Value : (memcached-operator.v0.0.1) ...` of the test file's expected
strings). -/
def invalidCSV (lvl detail csvName : String) : Error :=
  { ErrType := ErrorInvalidCSV, Level := lvl, Field := "", BadValue := some "",
    Detail := "(" ++ csvName ++ ") " ++ detail }

/-- The function `errors.ErrInvalidCSV(detail, csvName)`. -/
def ErrInvalidCSV (detail csvName : String) : Error :=
  invalidCSV LevelError detail csvName

/-- The function `errors.WarnInvalidCSV(detail, csvName)`. -/
def WarnInvalidCSV (detail csvName : String) : Error :=
  invalidCSV LevelWarn detail csvName

/-! ## `github.com/operator-framework/api/pkg/manifests` -/

/-- Indexing a Go `map[string]string`: the value stored under the key, the empty
string when there is none.  A map is written as the list of its entries. -/
def mapIndex (m : List (String × String)) (key : String) : String :=
  (m.lookup key).getD ""

/-- The part of `ClusterServiceVersion` this package reads: the object's name
and its annotations. -/
structure ClusterServiceVersion where
  Name : String
  Annotations : List (String × String)
  deriving DecidableEq, Repr

/-- The method `GetName` of the CSV's object metadata. -/
def ClusterServiceVersion.GetName (csv : ClusterServiceVersion) : String :=
  csv.Name

/-- The part of `manifests.Bundle` this package reads.  `K` is the type of the
manifest objects, which the package hands on unread; `CSV` is a pointer and
`none` is nil. -/
structure Bundle (K : Type) where
  Name : String
  Objects : List K
  CSV : Option ClusterServiceVersion
  deriving DecidableEq, Repr

/-- A value of type `interface{}` as the validators receive it: a `*manifests.Bundle`
(possibly nil) or a value of any other kind. -/
inductive Object (K : Type) where
  | bundle (b : Option (Bundle K))
  | other (x : K)
  deriving DecidableEq, Repr

/-! ## `pkg/validation/bundle_validation.go` -/

/-- The constant `KubeMaxAnnotation`. -/
def KubeMaxAnnotation : String := "operatorhub.io/ui-metadata-max-k8s-version"

/-- The constant `K8sVerV1betav1Unsupported`. -/
def K8sVerV1betav1Unsupported : String := "1.22.0"

/-- The constant `K8sVerV1betavSupported`. -/
def K8sVerV1betavSupported : String := "1.21.0"

/-- The type `K8sCommunityBundleValidatorChecks`. -/
structure K8sCommunityBundleValidatorChecks (K : Type) where
  bundle : Bundle K
  deprecateAPIsMsg : String
  errs : List String
  warns : List String
  deriving DecidableEq, Repr

/-- The two results of a Go call `v, err := f(..)` read separately: the version,
which is the zero `Version{}` when the call failed. -/
def versionOf : Except String Version → Version
  | .ok v => v
  | .error _ => { Major := 0, Minor := 0, Patch := 0, Pre := [], Build := [] }

/-- The error of a Go call `v, err := f(..)`: `none` is the nil error. -/
def errorOf : Except String Version → Option String
  | .ok _ => none
  | .error e => some e

/-- The `fmt.Errorf` call of lines 116-119: the annotation value does not parse. -/
def invalidValueError (kubeMax err : String) : String :=
  KubeMaxAnnotation ++ " metadata.annotation value (" ++ kubeMax ++ ") is invalid. Error: " ++
    err ++ " "

/-- The `fmt.Errorf` call of lines 127-132: deprecated APIs without the annotation. -/
def notInformedError (deprecateAPIsMsg : String) : String :=
  KubeMaxAnnotation ++ " metadata.annotation is not infomed. " ++
    "This distributions still using the removed APIs then, you **MUST** ensure that its " ++
    "CSV has the informative metadata annotation `" ++ KubeMaxAnnotation ++ "`. More info: " ++
    deprecateAPIsMsg

/-- The `fmt.Errorf` call of lines 138-143: the declared version is not below 1.22.0. -/
def tooHighError (kubeMax deprecateAPIsMsg : String) : String :=
  "invalid value for " ++ KubeMaxAnnotation ++ ". " ++
    "The K8s version value " ++ kubeMax ++ " is >= of " ++ K8sVerV1betav1Unsupported ++
    ". Note that " ++ deprecateAPIsMsg

section Checker

-- `quote` stands for Go's `strconv.Quote`, the rendering of the `%q` verb.
variable (quote : String → String) {K : Type}

/-- The function `checkMaxKubeVersionAnnotation`.  The result is `none` when the
bundle's CSV pointer is nil: line 110 dereferences it and the call panics.
`fromLine124` is the code from line 124 on and `fromLine137` the code from line
137 on, where control arrives when an `if` without `else` is not taken. -/
def checkMaxKubeVersionAnnotation (checks : K8sCommunityBundleValidatorChecks K) :
    Option (K8sCommunityBundleValidatorChecks K) :=
  match checks.bundle.CSV with
  | none => none
  | some csv =>
    let kubeMax := mapIndex csv.Annotations KubeMaxAnnotation
    let semVerKube1_22 := versionOf (ParseTolerant quote K8sVerV1betav1Unsupported)
    let semVerKubeMax := versionOf (ParseTolerant quote kubeMax)
    let err := errorOf (ParseTolerant quote kubeMax)
    let fromLine137 :=
      if semVerKubeMax.GE semVerKube1_22 then
        some { checks with
          errs := checks.errs ++ [tooHighError kubeMax checks.deprecateAPIsMsg] }
      else some checks
    let fromLine124 :=
      if checks.deprecateAPIsMsg.length > 0 then
        if kubeMax.length = 0 then
          match err with
          | some _ =>
            some { checks with
              errs := checks.errs ++ [notInformedError checks.deprecateAPIsMsg] }
          | none => fromLine137
        else fromLine137
      else some checks
    if kubeMax.length > 0 then
      match err with
      | some e => some { checks with errs := checks.errs ++ [invalidValueError kubeMax e] }
      | none => fromLine124
    else fromLine124

/-- The loop of lines 89-93 of `validateK8sCommunityBundle`: every warning of
every detector result overwrites the message. -/
def lastWarningDetail (resultDeprecation : List ManifestResult) (msg : String) : String :=
  resultDeprecation.foldl (fun m res => res.Warnings.foldl (fun _ w => w.Detail) m) msg

-- `ObjectsToValidate` is the method `Bundle.ObjectsToValidate` and `Validate` the
-- method `validation.AlphaDeprecatedAPIsValidator.Validate`, both of the imported API.
variable (ObjectsToValidate : Bundle K → List (Object K))
  (Validate : List (Object K) → List ManifestResult)

/-- The function `validateK8sCommunityBundle`; `none` as argument is the nil
bundle, `none` as result a panic of the annotation check. -/
def validateK8sCommunityBundle (bundle : Option (Bundle K)) : Option ManifestResult :=
  let result : ManifestResult := { Name := "", Errors := [], Warnings := [] }
  match bundle with
  | none => some (result.Add [ErrInvalidBundle "Bundle is nil" none])
  | some bundle =>
    let result := { result with Name := bundle.Name }
    match bundle.CSV with
    | none => some (result.Add [ErrInvalidBundle "Bundle csv is nil" (some bundle.Name)])
    | some csv =>
      let checks : K8sCommunityBundleValidatorChecks K :=
        { bundle := bundle, deprecateAPIsMsg := "", errs := [], warns := [] }
      let objs := ObjectsToValidate bundle ++ bundle.Objects.map Object.other
      let resultDeprecation := Validate objs
      let checks :=
        { checks with
          deprecateAPIsMsg := lastWarningDetail resultDeprecation checks.deprecateAPIsMsg }
      match checkMaxKubeVersionAnnotation quote checks with
      | none => none
      | some checks =>
        let result :=
          checks.errs.foldl (fun r err => r.Add [ErrInvalidCSV err csv.GetName]) result
        let result :=
          checks.warns.foldl (fun r warn => r.Add [WarnInvalidCSV warn csv.GetName]) result
        some result

/-- The function `k8sCommunityBundleValidator`: one result per bundle pointer
among the arguments; `none` when a call panics. -/
def k8sCommunityBundleValidator : List (Object K) → Option (List ManifestResult)
  | [] => some []
  | .other _ :: objs => k8sCommunityBundleValidator objs
  | .bundle v :: objs =>
    match validateK8sCommunityBundle quote ObjectsToValidate Validate v with
    | none => none
    | some res =>
      match k8sCommunityBundleValidator objs with
      | none => none
      | some results => some (res :: results)

end Checker

/-- The text `sub` occurs in `s` (Go `strings.Contains`). -/
def Contains (s sub : String) : Prop := sub.data <:+: s.data

instance (s sub : String) : Decidable (Contains s sub) :=
  inferInstanceAs (Decidable (sub.data <:+: s.data))

/-- The nil-CSV bundle's opposite: a bundle named `name` carrying `csv`. -/
def bundleWith (name : String) (csv : ClusterServiceVersion) : Bundle Unit :=
  { Name := name, Objects := [], CSV := some csv }

/-- A detector that reports the single warning `m` whatever it is given. -/
def warnDetector (m : String) : List (Object Unit) → List ManifestResult :=
  fun _ =>
    [{ Name := "", Errors := [],
       Warnings := [{ ErrType := "", Level := LevelWarn, Field := "", BadValue := none,
                      Detail := m }] }]

/-- A detector that reports nothing. -/
def silentDetector : List (Object Unit) → List ManifestResult :=
  fun _ => []

/-- An object listing that lists nothing. -/
def noObjects : Bundle Unit → List (Object Unit) :=
  fun _ => []

/-- The text `s` is the decimal numeral, without leading zeroes, of the number `v`:
it is not empty, holds decimal digits only, does not start with a needless `0`,
and reads as `v`. -/
def Numeral (s : List Char) (v : Nat) : Prop :=
  s ≠ [] ∧ containsOnly s numbers = true ∧ hasLeadingZeroes s = false ∧
    decimalValue s = some v

/-- The ends of `checkMaxKubeVersionAnnotation` that a call with a detector
message can reach: the returns of lines 120, 133, 144 and 147. -/
inductive Branch where
  | invalidValue (err : String)
  | notInformed
  | tooHigh
  | pass
  deriving DecidableEq, Repr

/-- The errors a branch appends, for the annotation value `kubeMax` and the
detector message `msg`. -/
def Branch.errs : Branch → String → String → List String
  | .invalidValue err, kubeMax, _ => [invalidValueError kubeMax err]
  | .notInformed, _, msg => [notInformedError msg]
  | .tooHigh, kubeMax, msg => [tooHighError kubeMax msg]
  | .pass, _, _ => []

/-- The bundle pointers among the arguments, in argument order. -/
def bundlePointers {K : Type} : List (Object K) → List (Option (Bundle K))
  | [] => []
  | .bundle v :: objs => v :: bundlePointers objs
  | .other _ :: objs => bundlePointers objs

/-- The warnings of all detector results, in iteration order. -/
def allWarnings (resultDeprecation : List ManifestResult) : List Error :=
  resultDeprecation.flatMap fun res => res.Warnings

/-! ## Auxiliary facts -/

section Lemmas

variable (quote : String → String) {K : Type}

theorem length_pos_iff (s : String) : s.length > 0 ↔ s ≠ "" := by
  rcases s with ⟨l⟩
  cases l <;> simp [String.length, String.ext_iff]

theorem length_zero_iff (s : String) : s.length = 0 ↔ s = "" := by
  rcases s with ⟨l⟩
  cases l <;> simp [String.length, String.ext_iff]

/-- The removal version parses, whatever the quoting. -/
theorem parseTolerant_removal :
    ParseTolerant quote K8sVerV1betav1Unsupported =
      .ok { Major := 1, Minor := 22, Patch := 0, Pre := [], Build := [] } := rfl

/-- The empty string does not parse: its major number is empty. -/
theorem parseTolerant_empty :
    ParseTolerant quote "" =
      .error ("strconv.ParseUint: parsing " ++ quote "" ++ ": invalid syntax") := rfl

/-- A parse either gives a version or fails with a reason. -/
theorem except_cases (x : Except String Version) :
    (∃ v, x = .ok v) ∨ ∃ e, x = .error e := by
  cases x with
  | ok v => exact Or.inl ⟨v, rfl⟩
  | error e => exact Or.inr ⟨e, rfl⟩

theorem contains_of_eq (s sub : String) (p q : String) (h : s = p ++ sub ++ q) :
    Contains s sub := by
  subst h
  exact ⟨p.data, q.data, by simp [String.data_append]⟩

/-- A non-empty value that does not parse: the invalid-value error is appended. -/
theorem check_invalid (c : K8sCommunityBundleValidatorChecks K) (csv : ClusterServiceVersion)
    (e : String) (hcsv : c.bundle.CSV = some csv)
    (hne : mapIndex csv.Annotations KubeMaxAnnotation ≠ "")
    (hp : ParseTolerant quote (mapIndex csv.Annotations KubeMaxAnnotation) = .error e) :
    checkMaxKubeVersionAnnotation quote c =
      some { c with
        errs := c.errs ++ [invalidValueError (mapIndex csv.Annotations KubeMaxAnnotation) e] } := by
  simp [ checkMaxKubeVersionAnnotation, hcsv, hp, errorOf, length_pos_iff, hne]

/-- No detector message, and a value that is empty or parses: nothing is appended. -/
theorem check_silent (c : K8sCommunityBundleValidatorChecks K) (csv : ClusterServiceVersion)
    (hcsv : c.bundle.CSV = some csv) (hm : c.deprecateAPIsMsg = "")
    (ha : mapIndex csv.Annotations KubeMaxAnnotation = "" ∨
      ∃ v, ParseTolerant quote (mapIndex csv.Annotations KubeMaxAnnotation) = .ok v) :
    checkMaxKubeVersionAnnotation quote c = some c := by
  rcases ha with ha | ⟨v, hv⟩
  · simp [ checkMaxKubeVersionAnnotation, hcsv, ha, hm]
  · simp [ checkMaxKubeVersionAnnotation, hcsv, hv, hm, errorOf]

/-- A detector message and an empty value: the not-informed error is appended. -/
theorem check_notInformed (c : K8sCommunityBundleValidatorChecks K)
    (csv : ClusterServiceVersion) (hcsv : c.bundle.CSV = some csv)
    (hm : c.deprecateAPIsMsg ≠ "") (ha : mapIndex csv.Annotations KubeMaxAnnotation = "") :
    checkMaxKubeVersionAnnotation quote c =
      some { c with errs := c.errs ++ [notInformedError c.deprecateAPIsMsg] } := by
  simp [ checkMaxKubeVersionAnnotation, hcsv, ha, parseTolerant_empty, errorOf, length_pos_iff, hm]

/-- A detector message and a value that parses: the verdict is the comparison
with 1.22.0. -/
theorem check_parsed (c : K8sCommunityBundleValidatorChecks K) (csv : ClusterServiceVersion)
    (v : Version) (hcsv : c.bundle.CSV = some csv) (hm : c.deprecateAPIsMsg ≠ "")
    (hv : ParseTolerant quote (mapIndex csv.Annotations KubeMaxAnnotation) = .ok v) :
    checkMaxKubeVersionAnnotation quote c =
      if v.GE { Major := 1, Minor := 22, Patch := 0, Pre := [], Build := [] } then
        some { c with
          errs := c.errs ++
            [tooHighError (mapIndex csv.Annotations KubeMaxAnnotation) c.deprecateAPIsMsg] }
      else some c := by
  simp [ checkMaxKubeVersionAnnotation, hcsv, hv, parseTolerant_removal, errorOf, versionOf,
    length_pos_iff, hm]

theorem foldl_errInvalidCSV (n : String) (l : List String) (r : ManifestResult) :
    l.foldl (fun r err => r.Add [ErrInvalidCSV err n]) r =
      { r with Errors := r.Errors ++ l.map fun err => ErrInvalidCSV err n } := by
  induction l generalizing r with
  | nil => simp
  | cons a l ih =>
    rw [List.foldl_cons, ih]
    simp [ManifestResult.Add, ManifestResult.addOne, ErrInvalidCSV, invalidCSV]

theorem foldl_warnInvalidCSV (n : String) (l : List String) (r : ManifestResult) :
    l.foldl (fun r warn => r.Add [WarnInvalidCSV warn n]) r =
      { r with Warnings := r.Warnings ++ l.map fun warn => WarnInvalidCSV warn n } := by
  induction l generalizing r with
  | nil => simp
  | cons a l ih =>
    have hlev : ¬ LevelWarn = LevelError := by decide
    rw [List.foldl_cons, ih]
    simp [ManifestResult.Add, ManifestResult.addOne, WarnInvalidCSV, invalidCSV, hlev]

/-- With a CSV present the check returns its argument with at most one error
appended and nothing else changed. -/
theorem check_frame (c : K8sCommunityBundleValidatorChecks K) (csv : ClusterServiceVersion)
    (hcsv : c.bundle.CSV = some csv) :
    ∃ new : List String, new.length ≤ 1 ∧
      checkMaxKubeVersionAnnotation quote c = some { c with errs := c.errs ++ new } := by
  by_cases hm : c.deprecateAPIsMsg = ""
  · by_cases ha : mapIndex csv.Annotations KubeMaxAnnotation = ""
    · exact ⟨[], by simp, by simpa using check_silent quote c csv hcsv hm (Or.inl ha)⟩
    · cases hp : ParseTolerant quote (mapIndex csv.Annotations KubeMaxAnnotation) with
      | error e => exact ⟨[_], by simp, check_invalid quote c csv e hcsv ha hp⟩
      | ok v =>
        exact ⟨[], by simp, by simpa using check_silent quote c csv hcsv hm (Or.inr ⟨v, hp⟩)⟩
  · by_cases ha : mapIndex csv.Annotations KubeMaxAnnotation = ""
    · exact ⟨[_], by simp, check_notInformed quote c csv hcsv hm ha⟩
    · cases hp : ParseTolerant quote (mapIndex csv.Annotations KubeMaxAnnotation) with
      | error e => exact ⟨[_], by simp, check_invalid quote c csv e hcsv ha hp⟩
      | ok v =>
        have h := check_parsed quote c csv v hcsv hm hp
        by_cases hge : v.GE { Major := 1, Minor := 22, Patch := 0, Pre := [], Build := [] } = true
        · rw [if_pos hge] at h
          exact ⟨[_], by simp, h⟩
        · rw [if_neg hge] at h
          exact ⟨[], by simp, by simpa using h⟩

/-- With a nil CSV the check returns nothing. -/
theorem check_nil (c : K8sCommunityBundleValidatorChecks K) (hcsv : c.bundle.CSV = none) :
    checkMaxKubeVersionAnnotation quote c = none := by
  simp [ checkMaxKubeVersionAnnotation, hcsv]

variable (ObjectsToValidate : Bundle K → List (Object K))
  (Validate : List (Object K) → List ManifestResult)

/-- The result for a bundle with a CSV, in terms of the annotation check. -/
theorem validate_some (b : Bundle K) (csv : ClusterServiceVersion) (hcsv : b.CSV = some csv) :
    validateK8sCommunityBundle quote ObjectsToValidate Validate (some b) =
      ( checkMaxKubeVersionAnnotation quote
        { bundle := b,
          deprecateAPIsMsg :=
            lastWarningDetail (Validate (ObjectsToValidate b ++ b.Objects.map Object.other)) "",
          errs := [], warns := [] }).map
        fun r =>
          { Name := b.Name,
            Errors := r.errs.map fun err => ErrInvalidCSV err csv.Name,
            Warnings := r.warns.map fun warn => WarnInvalidCSV warn csv.Name } := by
  simp only [validateK8sCommunityBundle, hcsv]
  cases checkMaxKubeVersionAnnotation quote _ with
  | none => rfl
  | some r =>
    simp [foldl_errInvalidCSV, foldl_warnInvalidCSV, ClusterServiceVersion.GetName]

/-- The result for a bundle with a CSV once the value returned by the annotation
check is known. -/
theorem validate_of_check (b : Bundle K) (csv : ClusterServiceVersion) (m : String)
    (errs : List String) (hcsv : b.CSV = some csv)
    (hdet : lastWarningDetail (Validate (ObjectsToValidate b ++ b.Objects.map Object.other)) ""
      = m)
    (hc : checkMaxKubeVersionAnnotation quote
        { bundle := b, deprecateAPIsMsg := m, errs := [], warns := [] } =
      some { bundle := b, deprecateAPIsMsg := m, errs := errs, warns := [] }) :
    validateK8sCommunityBundle quote ObjectsToValidate Validate (some b) =
      some { Name := b.Name, Errors := errs.map fun err => ErrInvalidCSV err csv.Name,
             Warnings := [] } := by
  rw [validate_some quote ObjectsToValidate Validate b csv hcsv, hdet, hc]
  simp

/-- The result for a bundle with a CSV: the bundle's name, at most one error, no
warning. -/
theorem validate_frame (b : Bundle K) (csv : ClusterServiceVersion) (hcsv : b.CSV = some csv) :
    ∃ new : List String, new.length ≤ 1 ∧
      validateK8sCommunityBundle quote ObjectsToValidate Validate (some b) =
        some { Name := b.Name, Errors := new.map fun err => ErrInvalidCSV err csv.Name,
               Warnings := [] } := by
  obtain ⟨new, hlen, hc⟩ := check_frame quote
    { bundle := b,
      deprecateAPIsMsg :=
        lastWarningDetail (Validate (ObjectsToValidate b ++ b.Objects.map Object.other)) "",
      errs := [], warns := [] } csv hcsv
  refine ⟨new, hlen, ?_⟩
  rw [validate_some quote ObjectsToValidate Validate b csv hcsv, hc]
  simp

/-- The result for the nil bundle. -/
theorem validate_nil :
    validateK8sCommunityBundle quote ObjectsToValidate Validate none =
      some { Name := "", Errors := [ErrInvalidBundle "Bundle is nil" none], Warnings := [] } :=
  rfl

/-- The result for a bundle whose CSV is nil. -/
theorem validate_nil_csv (b : Bundle K) (hcsv : b.CSV = none) :
    validateK8sCommunityBundle quote ObjectsToValidate Validate (some b) =
      some { Name := b.Name, Errors := [ErrInvalidBundle "Bundle csv is nil" (some b.Name)],
             Warnings := [] } := by
  simp [validateK8sCommunityBundle, hcsv, ManifestResult.Add, ManifestResult.addOne,
    ErrInvalidBundle]

end Lemmas

/-- Two texts that differ at a position inside their fixed beginnings differ,
whatever follows. -/
theorem append_ne_of_prefix (p q x y : String) (i : Nat) (hp : i < p.data.length)
    (hq : i < q.data.length) (h : p.data[i]? ≠ q.data[i]?) : p ++ x ≠ q ++ y := by
  intro heq
  apply h
  have h1 : (p ++ x).data[i]? = p.data[i]? := by
    rw [String.data_append, List.getElem?_append_left hp]
  have h2 : (q ++ y).data[i]? = q.data[i]? := by
    rw [String.data_append, List.getElem?_append_left hq]
  rw [← h1, ← h2, heq]

theorem invalidValueError_eq (a e : String) :
    invalidValueError a e =
      ( KubeMaxAnnotation ++ " metadata.annotation value (") ++
        (a ++ (") is invalid. Error: " ++ (e ++ " "))) := by
  simp [invalidValueError, String.append_assoc]

theorem notInformedError_eq (m : String) :
    notInformedError m =
      ( KubeMaxAnnotation ++ " metadata.annotation is not infomed. ") ++
        ("This distributions still using the removed APIs then, you **MUST** ensure that its " ++
          ("CSV has the informative metadata annotation `" ++
            ( KubeMaxAnnotation ++ ("`. More info: " ++ m)))) := by
  simp only [notInformedError, String.append_assoc]

theorem tooHighError_eq (a m : String) :
    tooHighError a m =
      "invalid value for " ++
        ( KubeMaxAnnotation ++ (". The K8s version value " ++ (a ++ (" is >= of " ++
          (K8sVerV1betav1Unsupported ++ (". Note that " ++ m)))))) := by
  simp [tooHighError, String.append_assoc]

/-- The invalid-value text is never the not-informed text: after the key and
" metadata.annotation " the one goes on with `v`, the other with `i`. -/
theorem invalidValueError_ne_notInformedError (a e m : String) :
    invalidValueError a e ≠ notInformedError m := by
  rw [invalidValueError_eq, notInformedError_eq]
  exact append_ne_of_prefix _ _ _ _ 63 (by decide) (by decide) (by decide)

/-- The invalid-value text is never the too-high text: the one starts with the
key, the other with `invalid value for`. -/
theorem invalidValueError_ne_tooHighError (a e a2 m : String) :
    invalidValueError a e ≠ tooHighError a2 m := by
  rw [invalidValueError_eq, tooHighError_eq]
  exact append_ne_of_prefix _ _ _ _ 0 (by decide) (by decide) (by decide)

theorem errInvalidCSV_injective (n x y : String) (h : ErrInvalidCSV x n = ErrInvalidCSV y n) :
    x = y := by
  have hd : (ErrInvalidCSV x n).Detail = (ErrInvalidCSV y n).Detail := by rw [h]
  simp only [ErrInvalidCSV, invalidCSV] at hd
  have hdata := congrArg String.data hd
  simp only [String.data_append, List.append_cancel_left_eq] at hdata
  exact String.ext hdata

theorem contains_notInformedError_key (m : String) :
    Contains (notInformedError m) KubeMaxAnnotation :=
  contains_of_eq _ _ "" (" metadata.annotation is not infomed. " ++
    "This distributions still using the removed APIs then, you **MUST** ensure that its " ++
    "CSV has the informative metadata annotation `" ++ KubeMaxAnnotation ++ "`. More info: " ++ m)
    (by simp [notInformedError, String.append_assoc])

theorem contains_notInformedError_msg (m : String) : Contains (notInformedError m) m :=
  contains_of_eq _ _ ( KubeMaxAnnotation ++ " metadata.annotation is not infomed. " ++
    "This distributions still using the removed APIs then, you **MUST** ensure that its " ++
    "CSV has the informative metadata annotation `" ++ KubeMaxAnnotation ++ "`. More info: ") ""
    (by simp [notInformedError, String.append_assoc])

/-- What the detail of an invalid-CSV error contains: whatever the message contains. -/
theorem contains_detail (msg n sub : String) (h : Contains msg sub) :
    Contains (ErrInvalidCSV msg n).Detail sub := by
  obtain ⟨p, q, hpq⟩ := h
  refine ⟨("(" ++ n ++ ") ").data ++ p, q, ?_⟩
  simp [ErrInvalidCSV, invalidCSV, String.data_append, ← hpq, List.append_assoc]

theorem contains_tooHighError_value (a m : String) : Contains (tooHighError a m) a :=
  contains_of_eq _ _ ("invalid value for " ++ KubeMaxAnnotation ++ ". " ++
    "The K8s version value ") (" is >= of " ++ K8sVerV1betav1Unsupported ++ ". Note that " ++ m)
    (by simp only [tooHighError, String.append_assoc])

theorem contains_tooHighError_removal (a m : String) :
    Contains (tooHighError a m) K8sVerV1betav1Unsupported :=
  contains_of_eq _ _ ("invalid value for " ++ KubeMaxAnnotation ++ ". " ++
    "The K8s version value " ++ a ++ " is >= of ") (". Note that " ++ m)
    (by simp only [tooHighError, String.append_assoc])

theorem contains_tooHighError_msg (a m : String) : Contains (tooHighError a m) m :=
  contains_of_eq _ _ ("invalid value for " ++ KubeMaxAnnotation ++ ". " ++
    "The K8s version value " ++ a ++ " is >= of " ++ K8sVerV1betav1Unsupported ++
    ". Note that ") ""
    (by simp [tooHighError, String.append_assoc])

theorem contains_invalidValueError_key (a e : String) :
    Contains (invalidValueError a e) KubeMaxAnnotation :=
  contains_of_eq _ _ "" (" metadata.annotation value (" ++ a ++ ") is invalid. Error: " ++
    e ++ " ")
    (by simp [invalidValueError, String.append_assoc])

theorem contains_invalidValueError_value (a e : String) : Contains (invalidValueError a e) a :=
  contains_of_eq _ _ ( KubeMaxAnnotation ++ " metadata.annotation value (")
    (") is invalid. Error: " ++ e ++ " ")
    (by simp only [invalidValueError, String.append_assoc])

theorem contains_invalidValueError_reason (a e : String) : Contains (invalidValueError a e) e :=
  contains_of_eq _ _ ( KubeMaxAnnotation ++ " metadata.annotation value (" ++ a ++
    ") is invalid. Error: ") " "
    (by simp only [invalidValueError, String.append_assoc])

/-- The annotation map holds no value, or the empty string, for the key exactly
when indexing it gives the empty string. -/
theorem mapIndex_eq_empty (m : List (String × String)) (key : String) :
    mapIndex m key = "" ↔ m.lookup key = none ∨ m.lookup key = some "" := by
  unfold mapIndex
  cases m.lookup key <;> simp

/-! ## Facts about the parser on dotted numerals -/

/-- A decimal digit is none of the characters the parser treats specially. -/
theorem digit_facts (c : Char) (h : numbers.contains c = true) :
    c ≠ '.' ∧ c ≠ '+' ∧ c ≠ '-' ∧ c ≠ 'v' ∧ unicodeIsSpace c = false ∧ c.isDigit = true := by
  simp only [numbers, List.contains_eq_any_beq, List.any_cons, List.any_nil, Bool.or_false,
    Bool.or_eq_true, beq_iff_eq] at h
  rcases h with h | h | h | h | h | h | h | h | h | h <;> subst h <;> decide

theorem containsOnly_iff (s set : List Char) :
    containsOnly s set = true ↔ ∀ c ∈ s, set.contains c = true := by
  simp [containsOnly, List.all_eq_true]

theorem containsOnly_append (s t set : List Char) :
    containsOnly (s ++ t) set = (containsOnly s set && containsOnly t set) := by
  simp [containsOnly, List.all_append]

theorem cutAt_append (sep : Char) (s rest : List Char) (h : ∀ c ∈ s, c ≠ sep) :
    cutAt sep (s ++ sep :: rest) = some (s, rest) := by
  induction s with
  | nil => simp [cutAt]
  | cons c cs ih =>
    have hc : c ≠ sep := h c (List.mem_cons_self _ _)
    have ih2 := ih fun d hd => h d (List.mem_cons_of_mem _ hd)
    simp [cutAt, hc, ih2]

theorem cutAt_none (sep : Char) (s : List Char) (h : ∀ c ∈ s, c ≠ sep) :
    cutAt sep s = none := by
  induction s with
  | nil => simp [cutAt]
  | cons c cs ih =>
    have hc : c ≠ sep := h c (List.mem_cons_self _ _)
    have ih2 := ih fun d hd => h d (List.mem_cons_of_mem _ hd)
    simp [cutAt, hc, ih2]

theorem dropWhile_eq_self (p : Char → Bool) (s : List Char)
    (h : ∀ c, s.head? = some c → p c = false) : s.dropWhile p = s := by
  cases s with
  | nil => rfl
  | cons c cs =>
    have hc : p c = false := h c rfl
    simp [List.dropWhile_cons, hc]

/-- Trimming leaves a text alone whose first and last characters are not spaces. -/
theorem stringsTrimSpace_eq_self (s : List Char)
    (hhead : ∀ c, s.head? = some c → unicodeIsSpace c = false)
    (hlast : ∀ c, s.getLast? = some c → unicodeIsSpace c = false) :
    stringsTrimSpace s = s := by
  unfold stringsTrimSpace
  rw [dropWhile_eq_self _ s hhead, dropWhile_eq_self _ s.reverse, List.reverse_reverse]
  intro c hc
  rw [List.head?_reverse] at hc
  exact hlast c hc

theorem stringsTrimPrefixV_eq_self (s : List Char) (h : ∀ c, s.head? = some c → c ≠ 'v') :
    stringsTrimPrefixV s = s := by
  cases s with
  | nil => rfl
  | cons c cs =>
    have hc : c ≠ 'v' := h c rfl
    unfold stringsTrimPrefixV
    split
    · rename_i heq
      cases heq
      exact absurd rfl hc
    · rfl

theorem digits_ne (s : List Char) (h : containsOnly s numbers = true) (sep : Char)
    (hsep : numbers.contains sep = false) : ∀ c ∈ s, c ≠ sep := by
  intro c hc heq
  have hmem := (containsOnly_iff s numbers).mp h c hc
  rw [heq, hsep] at hmem
  cases hmem

/-- The first character of a dotted text that begins with a digit string. -/
theorem head_dotted (M rest : List Char) (hM : containsOnly M numbers = true) (hne : M ≠ [])
    (c : Char) (hc : (M ++ '.' :: rest).head? = some c) : numbers.contains c = true := by
  cases M with
  | nil => exact absurd rfl hne
  | cons d ds =>
    simp only [List.cons_append, List.head?_cons, Option.some.injEq] at hc
    subst hc
    exact (containsOnly_iff _ numbers).mp hM d (List.mem_cons_self _ _)

/-- The last character of a dotted text that ends with a digit string. -/
theorem last_dotted (front p : List Char) (hp : containsOnly p numbers = true) (hne : p ≠ [])
    (c : Char) (hc : (front ++ '.' :: p).getLast? = some c) : numbers.contains c = true := by
  have hlast : (front ++ '.' :: p).getLast? = p.getLast? := by
    rw [show front ++ '.' :: p = (front ++ ['.']) ++ p by simp]
    exact List.getLast?_append_of_ne_nil _ hne
  rw [hlast] at hc
  exact (containsOnly_iff _ numbers).mp hp c (List.mem_of_getLast?_eq_some hc)

theorem stringsSplitN_two (M m : List Char) (hM : containsOnly M numbers = true)
    (hm : containsOnly m numbers = true) :
    stringsSplitN '.' 3 (M ++ '.' :: m) = [M, m] := by
  have h1 := cutAt_append '.' M m (digits_ne M hM '.' (by decide))
  have h2 := cutAt_none '.' m (digits_ne m hm '.' (by decide))
  simp [stringsSplitN, h1, h2]

theorem stringsSplitN_three (M m p : List Char) (hM : containsOnly M numbers = true)
    (hm : containsOnly m numbers = true) :
    stringsSplitN '.' 3 (M ++ '.' :: (m ++ '.' :: p)) = [M, m, p] := by
  have h1 := cutAt_append '.' M (m ++ '.' :: p) (digits_ne M hM '.' (by decide))
  have h2 := cutAt_append '.' m p (digits_ne m hm '.' (by decide))
  simp [stringsSplitN, h1, h2]

section ParserFacts

variable (quote : String → String)

/-- The strict parse of three dotted digit strings reads them one after the
other as major, minor and patch number. -/
theorem parse_dotted (M m p : List Char) (hM : containsOnly M numbers = true)
    (hm : containsOnly m numbers = true) (hp : containsOnly p numbers = true) :
    Parse quote (M ++ '.' :: (m ++ '.' :: p)) =
      match parseNumber quote "major" "Major" M with
      | .error e => .error e
      | .ok major =>
        match parseNumber quote "minor" "Minor" m with
        | .error e => .error e
        | .ok minor =>
          match parseNumber quote "patch" "Patch" p with
          | .error e => .error e
          | .ok patch =>
            .ok { Major := major, Minor := minor, Patch := patch, Pre := [], Build := [] } := by
  have hplus := cutAt_none '+' p (digits_ne p hp '+' (by decide))
  have hminus := cutAt_none '-' p (digits_ne p hp '-' (by decide))
  unfold Parse
  rw [stringsSplitN_three M m p hM hm]
  simp only [List.length_append, List.length_cons]
  rw [if_neg (by omega)]
  simp only [hplus, hminus]
  cases parseNumber quote "major" "Major" M with
  | error e => rfl
  | ok major =>
    cases parseNumber quote "minor" "Minor" m with
    | error e => rfl
    | ok minor =>
      cases parseNumber quote "patch" "Patch" p with
      | error e => rfl
      | ok patch => rfl

/-- A numeral below 2^64 is read as its value. -/
theorem parseNumber_numeral (what What : String) (s : List Char) (v : Nat)
    (h : Numeral s v) (hv : v < 2 ^ 64) : parseNumber quote what What s = .ok v := by
  obtain ⟨hne, hdig, hlead, hval⟩ := h
  cases s with
  | nil => exact absurd rfl hne
  | cons c cs =>
    have hv2 : v < 18446744073709551616 := hv
    simp [parseNumber, hdig, hlead, strconvParseUint, hval, hv2]

/-- The tolerant parse of `M.m.p`, three digit strings, is the strict parse. -/
theorem parseTolerant_three (M m p : List Char) (hM : containsOnly M numbers = true)
    (hm : containsOnly m numbers = true) (hp : containsOnly p numbers = true)
    (hMne : M ≠ []) (hpne : p ≠ []) :
    ParseTolerant quote ⟨M ++ '.' :: (m ++ '.' :: p)⟩ =
      Parse quote (M ++ '.' :: (m ++ '.' :: p)) := by
  have htrim : stringsTrimSpace (M ++ '.' :: (m ++ '.' :: p)) = M ++ '.' :: (m ++ '.' :: p) := by
    apply stringsTrimSpace_eq_self
    · intro c hc
      exact (digit_facts c (head_dotted M _ hM hMne c hc)).2.2.2.2.1
    · intro c hc
      have hc2 : ((M ++ '.' :: m) ++ '.' :: p).getLast? = some c := by simpa using hc
      exact (digit_facts c (last_dotted _ p hp hpne c hc2)).2.2.2.2.1
  have hpre : stringsTrimPrefixV (M ++ '.' :: (m ++ '.' :: p)) = M ++ '.' :: (m ++ '.' :: p) := by
    apply stringsTrimPrefixV_eq_self
    intro c hc
    exact (digit_facts c (head_dotted M _ hM hMne c hc)).2.2.2.1
  simp only [ParseTolerant, htrim, hpre, stringsSplitN_three M m p hM hm]
  simp

/-- The tolerant parse of `M.m`, two digit strings, is the strict parse of `M.m.0`. -/
theorem parseTolerant_two (M m : List Char) (hM : containsOnly M numbers = true)
    (hm : containsOnly m numbers = true) (hMne : M ≠ []) (hmne : m ≠ []) :
    ParseTolerant quote ⟨M ++ '.' :: m⟩ = Parse quote (M ++ '.' :: (m ++ '.' :: ['0'])) := by
  have htrim : stringsTrimSpace (M ++ '.' :: m) = M ++ '.' :: m := by
    apply stringsTrimSpace_eq_self
    · intro c hc
      exact (digit_facts c (head_dotted M _ hM hMne c hc)).2.2.2.2.1
    · intro c hc
      exact (digit_facts c (last_dotted _ m hm hmne c hc)).2.2.2.2.1
  have hpre : stringsTrimPrefixV (M ++ '.' :: m) = M ++ '.' :: m := by
    apply stringsTrimPrefixV_eq_self
    intro c hc
    exact (digit_facts c (head_dotted M _ hM hMne c hc)).2.2.2.1
  have hany : stringsContainsAny m ['+', '-'] = false := by
    have h1 := digits_ne m hm '+' (by decide)
    have h2 := digits_ne m hm '-' (by decide)
    simp only [stringsContainsAny, List.any_eq_false]
    intro c hc
    simp [h1 c hc, h2 c hc]
  simp only [ParseTolerant, htrim, hpre, stringsSplitN_two M m hM hm]
  simp [hany, fillParts, stringsJoinDot, List.intercalate]

end ParserFacts

/-! ## Facts about the comparison, the detector loop and the dispatch -/

/-- When a version is greater than or equal to 1.22.0: by major, then minor, then
patch number, and at 1.22.0 itself only without a pre-release. -/
theorem ge_removal_iff (v : Version) :
    v.GE { Major := 1, Minor := 22, Patch := 0, Pre := [], Build := [] } = true ↔
      v.Major > 1 ∨ (v.Major = 1 ∧ v.Minor > 22) ∨
        (v.Major = 1 ∧ v.Minor = 22 ∧ v.Patch > 0) ∨
        (v.Major = 1 ∧ v.Minor = 22 ∧ v.Patch = 0 ∧ v.Pre = []) := by
  rcases v with ⟨M, m, p, pre, bld⟩
  simp only [Version.GE, Version.Compare, decide_eq_true_eq]
  cases pre with
  | nil =>
    simp only [List.length_nil, and_self, if_true, gt_iff_lt, and_true]
    split_ifs <;> omega
  | cons a as =>
    simp only [List.length_cons, List.length_nil, Nat.succ_ne_zero, false_and, if_false,
      gt_iff_lt, Nat.zero_lt_succ, and_self, if_true, and_false]
    split_ifs <;> simp <;> omega

theorem lastWarning_inner (ws : List Error) (m : String) :
    ws.foldl (fun _ w => w.Detail) m = (ws.getLast?.map fun w => w.Detail).getD m := by
  induction ws generalizing m with
  | nil => rfl
  | cons w ws ih =>
    rw [List.foldl_cons, ih, List.getLast?_cons]
    cases ws.getLast? <;> rfl

/-- The message after the detector loop: the detail of the last warning, or the
message the loop started with when there is no warning. -/
theorem lastWarningDetail_eq (results : List ManifestResult) (m : String) :
    lastWarningDetail results m =
      ((allWarnings results).getLast?.map fun w => w.Detail).getD m := by
  induction results generalizing m with
  | nil => rfl
  | cons r rs ih =>
    have hstep : lastWarningDetail (r :: rs) m =
        lastWarningDetail rs (r.Warnings.foldl (fun _ w => w.Detail) m) := rfl
    have hcons : allWarnings (r :: rs) = r.Warnings ++ allWarnings rs := by
      simp [allWarnings]
    rw [hstep, ih, lastWarning_inner, hcons, List.getLast?_append]
    cases (allWarnings rs).getLast? <;> simp

theorem allWarnings_map_errors (results : List ManifestResult)
    (errs : ManifestResult → List Error) :
    allWarnings (results.map fun r => { r with Errors := errs r }) = allWarnings results := by
  induction results with
  | nil => rfl
  | cons r rs ih =>
    simp only [allWarnings, List.map_cons, List.flatMap_cons] at ih ⊢
    rw [ih]

section DispatchFacts

variable (quote : String → String) {K : Type}

/-- With a CSV present and a detector message, the annotation alone decides the
branch the check takes. -/
theorem check_branch (b : Bundle K) (csv : ClusterServiceVersion) (hcsv : b.CSV = some csv) :
    ∃ br : Branch, ∀ m : String, m ≠ "" →
      checkMaxKubeVersionAnnotation quote
          { bundle := b, deprecateAPIsMsg := m, errs := [], warns := [] } =
        some { bundle := b, deprecateAPIsMsg := m,
               errs := br.errs (mapIndex csv.Annotations KubeMaxAnnotation) m, warns := [] } := by
  by_cases ha : mapIndex csv.Annotations KubeMaxAnnotation = ""
  · refine ⟨.notInformed, fun m hm => ?_⟩
    simpa [Branch.errs] using check_notInformed quote
      { bundle := b, deprecateAPIsMsg := m, errs := [], warns := [] } csv hcsv hm ha
  · rcases except_cases (ParseTolerant quote (mapIndex csv.Annotations KubeMaxAnnotation))
      with ⟨v, hp⟩ | ⟨e, hp⟩
    · by_cases hge : v.GE { Major := 1, Minor := 22, Patch := 0, Pre := [], Build := [] } = true
      · refine ⟨.tooHigh, fun m hm => ?_⟩
        have h := check_parsed quote
          { bundle := b, deprecateAPIsMsg := m, errs := [], warns := [] } csv v hcsv hm hp
        rw [if_pos hge] at h
        simpa [Branch.errs] using h
      · refine ⟨.pass, fun m hm => ?_⟩
        have h := check_parsed quote
          { bundle := b, deprecateAPIsMsg := m, errs := [], warns := [] } csv v hcsv hm hp
        rw [if_neg hge] at h
        simpa [Branch.errs] using h
    · refine ⟨.invalidValue e, fun m _ => ?_⟩
      simpa [Branch.errs] using check_invalid quote
        { bundle := b, deprecateAPIsMsg := m, errs := [], warns := [] } csv e hcsv ha hp

variable (ObjectsToValidate : Bundle K → List (Object K))
  (Validate : List (Object K) → List ManifestResult)

/-- The validator returns a result for every bundle pointer. -/
theorem validate_total (bundle : Option (Bundle K)) :
    ∃ r : ManifestResult,
      validateK8sCommunityBundle quote ObjectsToValidate Validate bundle = some r := by
  cases bundle with
  | none => exact ⟨_, validate_nil quote ObjectsToValidate Validate⟩
  | some b =>
    cases hcsv : b.CSV with
    | none => exact ⟨_, validate_nil_csv quote ObjectsToValidate Validate b hcsv⟩
    | some csv =>
      obtain ⟨new, _, hv⟩ := validate_frame quote ObjectsToValidate Validate b csv hcsv
      exact ⟨_, hv⟩

/-- The dispatcher returns the validator's results for the bundle pointers. -/
theorem dispatch_eq (objs : List (Object K)) :
    ∃ results : List ManifestResult,
      k8sCommunityBundleValidator quote ObjectsToValidate Validate objs = some results ∧
      results.map some =
        (bundlePointers objs).map
          (validateK8sCommunityBundle quote ObjectsToValidate Validate) := by
  induction objs with
  | nil => exact ⟨[], rfl, rfl⟩
  | cons o objs ih =>
    obtain ⟨results, hk, hmap⟩ := ih
    cases o with
    | other x => exact ⟨results, by simpa [k8sCommunityBundleValidator] using hk, hmap⟩
    | bundle v =>
      obtain ⟨r, hr⟩ := validate_total quote ObjectsToValidate Validate v
      refine ⟨r :: results, ?_, ?_⟩
      · simp [k8sCommunityBundleValidator, hr, hk]
      · simp [bundlePointers, hr, hmap]

theorem dispatch_others (xs : List K) :
    k8sCommunityBundleValidator quote ObjectsToValidate Validate (xs.map Object.other) =
      some [] := by
  induction xs with
  | nil => rfl
  | cons x xs ih => simpa [k8sCommunityBundleValidator] using ih

end DispatchFacts

section OutcomeFacts

variable (quote : String → String) {K : Type}
  (ObjectsToValidate : Bundle K → List (Object K))
  (Validate : List (Object K) → List ManifestResult)

/-- The result when deprecated APIs were detected and the annotation parses: the
too-high error when the version is not below 1.22.0, nothing otherwise. -/
theorem validate_parsed (b : Bundle K) (csv : ClusterServiceVersion) (v : Version)
    (hcsv : b.CSV = some csv)
    (hdet : lastWarningDetail (Validate (ObjectsToValidate b ++ b.Objects.map Object.other)) ""
      ≠ "")
    (hv : ParseTolerant quote (mapIndex csv.Annotations KubeMaxAnnotation) = .ok v) :
    validateK8sCommunityBundle quote ObjectsToValidate Validate (some b) =
      some { Name := b.Name,
             Errors :=
               if v.GE { Major := 1, Minor := 22, Patch := 0, Pre := [], Build := [] } then
                 [ErrInvalidCSV (tooHighError (mapIndex csv.Annotations KubeMaxAnnotation)
                   (lastWarningDetail
                     (Validate (ObjectsToValidate b ++ b.Objects.map Object.other)) ""))
                   csv.Name]
               else [],
             Warnings := [] } := by
  have hc := check_parsed quote
    { bundle := b,
      deprecateAPIsMsg :=
        lastWarningDetail (Validate (ObjectsToValidate b ++ b.Objects.map Object.other)) "",
      errs := [], warns := [] } csv v hcsv hdet hv
  rw [validate_some quote ObjectsToValidate Validate b csv hcsv, hc]
  split_ifs <;> simp

/-- The result when the annotation is not empty and does not parse: the
invalid-value error. -/
theorem validate_unparsed (b : Bundle K) (csv : ClusterServiceVersion) (e : String)
    (hcsv : b.CSV = some csv) (hne : mapIndex csv.Annotations KubeMaxAnnotation ≠ "")
    (hp : ParseTolerant quote (mapIndex csv.Annotations KubeMaxAnnotation) = .error e) :
    validateK8sCommunityBundle quote ObjectsToValidate Validate (some b) =
      some { Name := b.Name,
             Errors := [ErrInvalidCSV
               (invalidValueError (mapIndex csv.Annotations KubeMaxAnnotation) e) csv.Name],
             Warnings := [] } := by
  have hc := check_invalid quote
    { bundle := b,
      deprecateAPIsMsg :=
        lastWarningDetail (Validate (ObjectsToValidate b ++ b.Objects.map Object.other)) "",
      errs := [], warns := [] } csv e hcsv hne hp
  rw [validate_some quote ObjectsToValidate Validate b csv hcsv, hc]
  simp

end OutcomeFacts

theorem mk_ne_empty (c : Char) (s t : List Char) : (String.mk (s ++ c :: t)) ≠ "" := by
  intro h
  have hd := congrArg String.data h
  simp at hd

section NumeralFacts

variable (quote : String → String)

/-- A numeral of 2^64 or more is not read: the number is out of range. -/
theorem parseNumber_large (what What : String) (s : List Char) (v : Nat)
    (h : Numeral s v) (hv : 2 ^ 64 ≤ v) :
    parseNumber quote what What s =
      .error ("strconv.ParseUint: parsing " ++ quote ⟨s⟩ ++ ": value out of range") := by
  obtain ⟨hne, hdig, hlead, hval⟩ := h
  cases s with
  | nil => exact absurd rfl hne
  | cons c cs =>
    have hv2 : ¬ v < 18446744073709551616 := Nat.not_lt.mpr hv
    simp [parseNumber, hdig, hlead, strconvParseUint, hval, hv2]

/-- Three dotted numerals below 2^64 parse tolerantly to the version they spell. -/
theorem parseTolerant_numerals (M m p : List Char) (vM vm vp : Nat) (hM : Numeral M vM)
    (hm : Numeral m vm) (hp : Numeral p vp) (hvM : vM < 2 ^ 64) (hvm : vm < 2 ^ 64)
    (hvp : vp < 2 ^ 64) :
    ParseTolerant quote ⟨M ++ '.' :: (m ++ '.' :: p)⟩ =
      .ok { Major := vM, Minor := vm, Patch := vp, Pre := [], Build := [] } := by
  rw [parseTolerant_three quote M m p hM.2.1 hm.2.1 hp.2.1 hM.1 hp.1,
    parse_dotted quote M m p hM.2.1 hm.2.1 hp.2.1,
    parseNumber_numeral quote _ _ M vM hM hvM, parseNumber_numeral quote _ _ m vm hm hvm,
    parseNumber_numeral quote _ _ p vp hp hvp]

theorem numeral_zero : Numeral ['0'] 0 := by
  refine ⟨by simp, by decide, by decide, by decide⟩

/-- Two dotted numerals: accepted as `M.m.0` when both are below 2^64, rejected
when one is not. -/
theorem parseTolerant_two_numerals (M m : List Char) (vM vm : Nat) (hM : Numeral M vM)
    (hm : Numeral m vm) :
    (vM < 2 ^ 64 → vm < 2 ^ 64 →
      ParseTolerant quote ⟨M ++ '.' :: m⟩ =
        .ok { Major := vM, Minor := vm, Patch := 0, Pre := [], Build := [] }) ∧
    (2 ^ 64 ≤ vM ∨ 2 ^ 64 ≤ vm → ∃ e, ParseTolerant quote ⟨M ++ '.' :: m⟩ = .error e) := by
  have h0 : parseNumber quote "patch" "Patch" ['0'] = .ok 0 :=
    parseNumber_numeral quote _ _ ['0'] 0 numeral_zero (by decide)
  rw [parseTolerant_two quote M m hM.2.1 hm.2.1 hM.1 hm.1,
    parse_dotted quote M m ['0'] hM.2.1 hm.2.1 (by decide)]
  constructor
  · intro hvM hvm
    rw [parseNumber_numeral quote _ _ M vM hM hvM, parseNumber_numeral quote _ _ m vm hm hvm, h0]
  · intro hlarge
    by_cases hvM : vM < 2 ^ 64
    · have hvm : 2 ^ 64 ≤ vm := by
        rcases hlarge with h | h
        · omega
        · exact h
      rw [parseNumber_numeral quote _ _ M vM hM hvM, parseNumber_large quote _ _ m vm hm hvm]
      exact ⟨_, rfl⟩
    · rw [parseNumber_large quote _ _ M vM hM (Nat.not_lt.mp hvM)]
      exact ⟨_, rfl⟩

end NumeralFacts

/-! ## The claims -/

section Claims

variable (quote : String → String) {K : Type}
  (ObjectsToValidate : Bundle K → List (Object K))
  (Validate : List (Object K) → List ManifestResult)

/-- C1. Deprecated APIs without the annotation: for a bundle with a CSV whose
annotations hold no value, or the empty string, for `KubeMaxAnnotation`, and a
non-empty detector message `m`, the check appends exactly the not-informed error
and no warning, the validator's result holds exactly one error and no warning,
and the error's text contains the annotation key and `m`. -/
theorem missing_annotation_one_error (b : Bundle K) (csv : ClusterServiceVersion) (m : String)
    (hcsv : b.CSV = some csv)
    (hann : csv.Annotations.lookup KubeMaxAnnotation = none ∨
      csv.Annotations.lookup KubeMaxAnnotation = some "")
    (hm : m ≠ "")
    (hdet : lastWarningDetail (Validate (ObjectsToValidate b ++ b.Objects.map Object.other)) ""
      = m) :
    checkMaxKubeVersionAnnotation quote
        { bundle := b, deprecateAPIsMsg := m, errs := [], warns := [] } =
      some { bundle := b, deprecateAPIsMsg := m, errs := [notInformedError m], warns := [] } ∧
    validateK8sCommunityBundle quote ObjectsToValidate Validate (some b) =
      some { Name := b.Name, Errors := [ErrInvalidCSV (notInformedError m) csv.Name],
             Warnings := [] } ∧
    Contains (notInformedError m) KubeMaxAnnotation ∧
    Contains (notInformedError m) m ∧
    Contains (ErrInvalidCSV (notInformedError m) csv.Name).Detail KubeMaxAnnotation ∧
    Contains (ErrInvalidCSV (notInformedError m) csv.Name).Detail m := by
  have hc := check_notInformed quote
    { bundle := b, deprecateAPIsMsg := m, errs := [], warns := [] } csv hcsv hm
    ((mapIndex_eq_empty _ _).mpr hann)
  simp only [List.nil_append] at hc
  refine ⟨hc, ?_, contains_notInformedError_key m, contains_notInformedError_msg m,
    contains_detail _ _ _ (contains_notInformedError_key m),
    contains_detail _ _ _ (contains_notInformedError_msg m)⟩
  exact validate_of_check quote ObjectsToValidate Validate b csv m _ hcsv hdet hc

/-- C1 at a bundle without annotations and the detector message "removed". -/
theorem missing_annotation_one_error_witness :
    validateK8sCommunityBundle quotePlain noObjects (warnDetector "removed")
        (some (bundleWith "b" { Name := "csv", Annotations := [] })) =
      some { Name := "b", Errors := [ErrInvalidCSV (notInformedError "removed") "csv"],
             Warnings := [] } :=
  (missing_annotation_one_error quotePlain noObjects (warnDetector "removed")
    (bundleWith "b" { Name := "csv", Annotations := [] }) { Name := "csv", Annotations := [] }
    "removed" rfl (Or.inl rfl) (by decide) rfl).2.1

/-- C2. Declared maximum not below the removal version: for a non-empty detector
message `m` and an annotation value that parses tolerantly to a version greater
than or equal to 1.22.0, the check appends exactly the too-high error and no
warning, the validator's result holds exactly one error and no warning, and the
error's text contains the raw value, the removal version "1.22.0" and `m`. -/
theorem declared_max_not_below_removal (b : Bundle K) (csv : ClusterServiceVersion)
    (m : String) (v : Version) (hcsv : b.CSV = some csv) (hm : m ≠ "")
    (hv : ParseTolerant quote (mapIndex csv.Annotations KubeMaxAnnotation) = .ok v)
    (hge : v.GE { Major := 1, Minor := 22, Patch := 0, Pre := [], Build := [] } = true)
    (hdet : lastWarningDetail (Validate (ObjectsToValidate b ++ b.Objects.map Object.other)) ""
      = m) :
    checkMaxKubeVersionAnnotation quote
        { bundle := b, deprecateAPIsMsg := m, errs := [], warns := [] } =
      some { bundle := b, deprecateAPIsMsg := m,
             errs := [tooHighError (mapIndex csv.Annotations KubeMaxAnnotation) m],
             warns := [] } ∧
    validateK8sCommunityBundle quote ObjectsToValidate Validate (some b) =
      some { Name := b.Name,
             Errors := [ErrInvalidCSV
               (tooHighError (mapIndex csv.Annotations KubeMaxAnnotation) m) csv.Name],
             Warnings := [] } ∧
    Contains (tooHighError (mapIndex csv.Annotations KubeMaxAnnotation) m)
      (mapIndex csv.Annotations KubeMaxAnnotation) ∧
    Contains (tooHighError (mapIndex csv.Annotations KubeMaxAnnotation) m) "1.22.0" ∧
    Contains (tooHighError (mapIndex csv.Annotations KubeMaxAnnotation) m) m ∧
    Contains
      (ErrInvalidCSV (tooHighError (mapIndex csv.Annotations KubeMaxAnnotation) m) csv.Name).Detail
      (mapIndex csv.Annotations KubeMaxAnnotation) ∧
    Contains
      (ErrInvalidCSV (tooHighError (mapIndex csv.Annotations KubeMaxAnnotation) m) csv.Name).Detail
      "1.22.0" ∧
    Contains
      (ErrInvalidCSV (tooHighError (mapIndex csv.Annotations KubeMaxAnnotation) m) csv.Name).Detail
      m := by
  have hc := check_parsed quote
    { bundle := b, deprecateAPIsMsg := m, errs := [], warns := [] } csv v hcsv hm hv
  simp only [hge, if_true, List.nil_append] at hc
  refine ⟨hc, ?_, contains_tooHighError_value _ m, contains_tooHighError_removal _ m,
    contains_tooHighError_msg _ m, contains_detail _ _ _ (contains_tooHighError_value _ m),
    contains_detail _ _ _ (contains_tooHighError_removal _ m),
    contains_detail _ _ _ (contains_tooHighError_msg _ m)⟩
  exact validate_of_check quote ObjectsToValidate Validate b csv m _ hcsv hdet hc

/-- C2 at the annotation value "1.22.0", equal to the removal version. -/
theorem declared_max_not_below_removal_witness :
    validateK8sCommunityBundle quotePlain noObjects (warnDetector "removed")
        (some (bundleWith "b"
          { Name := "csv", Annotations := [( KubeMaxAnnotation, "1.22.0")] })) =
      some { Name := "b", Errors := [ErrInvalidCSV (tooHighError "1.22.0" "removed") "csv"],
             Warnings := [] } :=
  (declared_max_not_below_removal quotePlain noObjects (warnDetector "removed")
    (bundleWith "b" { Name := "csv", Annotations := [( KubeMaxAnnotation, "1.22.0")] })
    { Name := "csv", Annotations := [( KubeMaxAnnotation, "1.22.0")] } "removed"
    { Major := 1, Minor := 22, Patch := 0, Pre := [], Build := [] }
    rfl (by decide) rfl (by decide) rfl).2.1

/-- C3. Declared maximum strictly below the removal version: for a non-empty
detector message and an annotation value that parses tolerantly to a version
that is not greater than or equal to 1.22.0, the check appends nothing and the
validator's result holds no error and no warning. -/
theorem declared_max_below_removal_passes (b : Bundle K) (csv : ClusterServiceVersion)
    (m : String) (v : Version) (hcsv : b.CSV = some csv) (hm : m ≠ "")
    (hv : ParseTolerant quote (mapIndex csv.Annotations KubeMaxAnnotation) = .ok v)
    (hlt : v.GE { Major := 1, Minor := 22, Patch := 0, Pre := [], Build := [] } = false)
    (hdet : lastWarningDetail (Validate (ObjectsToValidate b ++ b.Objects.map Object.other)) ""
      = m) :
    checkMaxKubeVersionAnnotation quote
        { bundle := b, deprecateAPIsMsg := m, errs := [], warns := [] } =
      some { bundle := b, deprecateAPIsMsg := m, errs := [], warns := [] } ∧
    validateK8sCommunityBundle quote ObjectsToValidate Validate (some b) =
      some { Name := b.Name, Errors := [], Warnings := [] } := by
  have hc := check_parsed quote
    { bundle := b, deprecateAPIsMsg := m, errs := [], warns := [] } csv v hcsv hm hv
  simp only [hlt, Bool.false_eq_true, if_false] at hc
  refine ⟨hc, ?_⟩
  exact validate_of_check quote ObjectsToValidate Validate b csv m _ hcsv hdet hc

/-- C3 at the annotation value `K8sVerV1betavSupported`, "1.21.0". -/
theorem declared_max_below_removal_passes_witness :
    validateK8sCommunityBundle quotePlain noObjects (warnDetector "removed")
        (some (bundleWith "b"
          { Name := "csv", Annotations := [( KubeMaxAnnotation, K8sVerV1betavSupported)] })) =
      some { Name := "b", Errors := [], Warnings := [] } :=
  (declared_max_below_removal_passes quotePlain noObjects (warnDetector "removed")
    (bundleWith "b"
      { Name := "csv", Annotations := [( KubeMaxAnnotation, K8sVerV1betavSupported)] })
    { Name := "csv", Annotations := [( KubeMaxAnnotation, K8sVerV1betavSupported)] } "removed"
    { Major := 1, Minor := 21, Patch := 0, Pre := [], Build := [] }
    rfl (by decide) rfl (by decide) rfl).2

/-- C4. A malformed annotation is reported on its own: for a non-empty annotation
value on which the tolerant parse fails with reason `e`, and any detector message
(empty or not), the check appends exactly the invalid-value error and no warning,
the validator's result holds exactly one error and no warning, the error's text
contains the annotation key, the raw value and `e`, and neither a not-informed
error nor a too-high error is in the result. -/
theorem malformed_annotation_reported_alone (b : Bundle K) (csv : ClusterServiceVersion)
    (m e : String) (hcsv : b.CSV = some csv)
    (hne : mapIndex csv.Annotations KubeMaxAnnotation ≠ "")
    (hp : ParseTolerant quote (mapIndex csv.Annotations KubeMaxAnnotation) = .error e)
    (hdet : lastWarningDetail (Validate (ObjectsToValidate b ++ b.Objects.map Object.other)) ""
      = m) :
    checkMaxKubeVersionAnnotation quote
        { bundle := b, deprecateAPIsMsg := m, errs := [], warns := [] } =
      some { bundle := b, deprecateAPIsMsg := m,
             errs := [invalidValueError (mapIndex csv.Annotations KubeMaxAnnotation) e],
             warns := [] } ∧
    validateK8sCommunityBundle quote ObjectsToValidate Validate (some b) =
      some { Name := b.Name,
             Errors := [ErrInvalidCSV
               (invalidValueError (mapIndex csv.Annotations KubeMaxAnnotation) e) csv.Name],
             Warnings := [] } ∧
    Contains (invalidValueError (mapIndex csv.Annotations KubeMaxAnnotation) e)
      KubeMaxAnnotation ∧
    Contains (invalidValueError (mapIndex csv.Annotations KubeMaxAnnotation) e)
      (mapIndex csv.Annotations KubeMaxAnnotation) ∧
    Contains (invalidValueError (mapIndex csv.Annotations KubeMaxAnnotation) e) e ∧
    Contains
      (ErrInvalidCSV (invalidValueError (mapIndex csv.Annotations KubeMaxAnnotation) e)
        csv.Name).Detail KubeMaxAnnotation ∧
    Contains
      (ErrInvalidCSV (invalidValueError (mapIndex csv.Annotations KubeMaxAnnotation) e)
        csv.Name).Detail (mapIndex csv.Annotations KubeMaxAnnotation) ∧
    Contains
      (ErrInvalidCSV (invalidValueError (mapIndex csv.Annotations KubeMaxAnnotation) e)
        csv.Name).Detail e ∧
    (∀ m2 : String,
      ErrInvalidCSV (notInformedError m2) csv.Name ∉
        [ErrInvalidCSV (invalidValueError (mapIndex csv.Annotations KubeMaxAnnotation) e)
          csv.Name]) ∧
    (∀ a2 m2 : String,
      ErrInvalidCSV (tooHighError a2 m2) csv.Name ∉
        [ErrInvalidCSV (invalidValueError (mapIndex csv.Annotations KubeMaxAnnotation) e)
          csv.Name]) := by
  have hc := check_invalid quote
    { bundle := b, deprecateAPIsMsg := m, errs := [], warns := [] } csv e hcsv hne hp
  simp only [List.nil_append] at hc
  refine ⟨hc, ?_, contains_invalidValueError_key _ e, contains_invalidValueError_value _ e,
    contains_invalidValueError_reason _ e,
    contains_detail _ _ _ (contains_invalidValueError_key _ e),
    contains_detail _ _ _ (contains_invalidValueError_value _ e),
    contains_detail _ _ _ (contains_invalidValueError_reason _ e), ?_, ?_⟩
  · exact validate_of_check quote ObjectsToValidate Validate b csv m _ hcsv hdet hc
  · intro m2 hmem
    rw [List.mem_singleton] at hmem
    exact invalidValueError_ne_notInformedError _ e m2
      (errInvalidCSV_injective _ _ _ hmem).symm
  · intro a2 m2 hmem
    rw [List.mem_singleton] at hmem
    exact invalidValueError_ne_tooHighError _ e a2 m2
      (errInvalidCSV_injective _ _ _ hmem).symm

/-- C4 at the annotation value "invalid" on a bundle with deprecated APIs. -/
theorem malformed_annotation_reported_alone_witness :
    validateK8sCommunityBundle quotePlain noObjects (warnDetector "removed")
        (some (bundleWith "b"
          { Name := "csv", Annotations := [( KubeMaxAnnotation, "invalid")] })) =
      some { Name := "b",
             Errors := [ErrInvalidCSV (invalidValueError "invalid"
               "Invalid character(s) found in major number \"invalid\"") "csv"],
             Warnings := [] } :=
  (malformed_annotation_reported_alone quotePlain noObjects (warnDetector "removed")
    (bundleWith "b" { Name := "csv", Annotations := [( KubeMaxAnnotation, "invalid")] })
    { Name := "csv", Annotations := [( KubeMaxAnnotation, "invalid")] } "removed"
    "Invalid character(s) found in major number \"invalid\""
    rfl (by decide) rfl rfl).2.1

/-- C5, as stated, fails: with no deprecation signal and the malformed annotation
value "invalid" the result holds one error, the invalid-value error. -/
theorem no_signal_malformed_annotation_fails :
    lastWarningDetail (silentDetector (noObjects (bundleWith "b"
        { Name := "csv", Annotations := [( KubeMaxAnnotation, "invalid")] }))) "" = "" ∧
    validateK8sCommunityBundle quotePlain noObjects silentDetector
        (some (bundleWith "b"
          { Name := "csv", Annotations := [( KubeMaxAnnotation, "invalid")] })) =
      some { Name := "b",
             Errors := [ErrInvalidCSV (invalidValueError "invalid"
               "Invalid character(s) found in major number \"invalid\"") "csv"],
             Warnings := [] } :=
  ⟨rfl, rfl⟩

/-- C5, amended. With an empty detector message the result of a bundle with a CSV
never holds a warning; it holds no error exactly when the annotation value is
absent, empty or parses tolerantly; and for a non-empty value on which the parse
fails it holds exactly the invalid-value error. -/
theorem no_signal_outcome (b : Bundle K) (csv : ClusterServiceVersion)
    (hcsv : b.CSV = some csv)
    (hdet : lastWarningDetail (Validate (ObjectsToValidate b ++ b.Objects.map Object.other)) ""
      = "") :
    ∃ r : ManifestResult,
      validateK8sCommunityBundle quote ObjectsToValidate Validate (some b) = some r ∧
      r.Warnings = [] ∧
      (r.Errors = [] ↔
        (mapIndex csv.Annotations KubeMaxAnnotation = "" ∨
          ∃ v, ParseTolerant quote (mapIndex csv.Annotations KubeMaxAnnotation) = .ok v)) ∧
      (∀ e : String, mapIndex csv.Annotations KubeMaxAnnotation ≠ "" →
        ParseTolerant quote (mapIndex csv.Annotations KubeMaxAnnotation) = .error e →
        r.Errors =
          [ErrInvalidCSV (invalidValueError (mapIndex csv.Annotations KubeMaxAnnotation) e)
            csv.Name]) := by
  by_cases hok : mapIndex csv.Annotations KubeMaxAnnotation = "" ∨
      ∃ v, ParseTolerant quote (mapIndex csv.Annotations KubeMaxAnnotation) = .ok v
  · have hc := check_silent quote
      { bundle := b, deprecateAPIsMsg := "", errs := [], warns := [] } csv hcsv rfl hok
    have hv := validate_of_check quote ObjectsToValidate Validate b csv "" [] hcsv hdet hc
    refine ⟨_, hv, rfl, ?_, ?_⟩
    · simp [hok]
    · intro e hne hp
      rcases hok with h | ⟨v, h⟩
      · exact absurd h hne
      · rw [hp] at h
        cases h
  · have hne : mapIndex csv.Annotations KubeMaxAnnotation ≠ "" := fun h => hok (Or.inl h)
    rcases except_cases (ParseTolerant quote (mapIndex csv.Annotations KubeMaxAnnotation))
      with ⟨v, hp⟩ | ⟨e, hp⟩
    · exact absurd (Or.inr ⟨v, hp⟩) hok
    · have hc := check_invalid quote
        { bundle := b, deprecateAPIsMsg := "", errs := [], warns := [] } csv e hcsv hne hp
      simp only [List.nil_append] at hc
      have hv := validate_of_check quote ObjectsToValidate Validate b csv "" _ hcsv hdet hc
      refine ⟨_, hv, rfl, ⟨fun h => ?_, fun h => absurd h hok⟩, ?_⟩
      · simp at h
      · intro e2 _ hp2
        rw [hp] at hp2
        cases hp2
        rfl

/-- C5, amended, at the annotation value "1.22.0" with no deprecation signal. -/
theorem no_signal_outcome_witness :
    ∃ r : ManifestResult,
      validateK8sCommunityBundle quotePlain noObjects silentDetector
        (some (bundleWith "b"
          { Name := "csv", Annotations := [( KubeMaxAnnotation, "1.22.0")] })) = some r ∧
      r.Warnings = [] ∧
      (r.Errors = [] ↔
        (mapIndex [( KubeMaxAnnotation, "1.22.0")] KubeMaxAnnotation = "" ∨
          ∃ v, ParseTolerant quotePlain
            (mapIndex [( KubeMaxAnnotation, "1.22.0")] KubeMaxAnnotation) = .ok v)) ∧
      (∀ e : String, mapIndex [( KubeMaxAnnotation, "1.22.0")] KubeMaxAnnotation ≠ "" →
        ParseTolerant quotePlain
          (mapIndex [( KubeMaxAnnotation, "1.22.0")] KubeMaxAnnotation) = .error e →
        r.Errors =
          [ErrInvalidCSV (invalidValueError
            (mapIndex [( KubeMaxAnnotation, "1.22.0")] KubeMaxAnnotation) e) "csv"]) :=
  no_signal_outcome quotePlain noObjects silentDetector
    (bundleWith "b" { Name := "csv", Annotations := [( KubeMaxAnnotation, "1.22.0")] })
    { Name := "csv", Annotations := [( KubeMaxAnnotation, "1.22.0")] } rfl rfl

/-- C6. No deprecation signal with an absent or well-formed annotation: for a
bundle with a CSV, an empty detector message, and an annotation value that is
absent, empty, or parses tolerantly to some version (of any size), the check
appends nothing and the validator's result holds no error and no warning. -/
theorem no_signal_wellformed_passes (b : Bundle K) (csv : ClusterServiceVersion)
    (hcsv : b.CSV = some csv)
    (hdet : lastWarningDetail (Validate (ObjectsToValidate b ++ b.Objects.map Object.other)) ""
      = "")
    (ha : csv.Annotations.lookup KubeMaxAnnotation = none ∨
      csv.Annotations.lookup KubeMaxAnnotation = some "" ∨
      ∃ v, ParseTolerant quote (mapIndex csv.Annotations KubeMaxAnnotation) = .ok v) :
    checkMaxKubeVersionAnnotation quote
        { bundle := b, deprecateAPIsMsg := "", errs := [], warns := [] } =
      some { bundle := b, deprecateAPIsMsg := "", errs := [], warns := [] } ∧
    validateK8sCommunityBundle quote ObjectsToValidate Validate (some b) =
      some { Name := b.Name, Errors := [], Warnings := [] } := by
  have hok : mapIndex csv.Annotations KubeMaxAnnotation = "" ∨
      ∃ v, ParseTolerant quote (mapIndex csv.Annotations KubeMaxAnnotation) = .ok v := by
    rcases ha with h | h | h
    · exact Or.inl ((mapIndex_eq_empty _ _).mpr (Or.inl h))
    · exact Or.inl ((mapIndex_eq_empty _ _).mpr (Or.inr h))
    · exact Or.inr h
  have hc := check_silent quote
    { bundle := b, deprecateAPIsMsg := "", errs := [], warns := [] } csv hcsv rfl hok
  exact ⟨hc, validate_of_check quote ObjectsToValidate Validate b csv "" [] hcsv hdet hc⟩

/-- C6 at the annotation value "1.23.4", above the removal version. -/
theorem no_signal_wellformed_passes_witness :
    validateK8sCommunityBundle quotePlain noObjects silentDetector
        (some (bundleWith "b"
          { Name := "csv", Annotations := [( KubeMaxAnnotation, "1.23.4")] })) =
      some { Name := "b", Errors := [], Warnings := [] } :=
  (no_signal_wellformed_passes quotePlain noObjects silentDetector
    (bundleWith "b" { Name := "csv", Annotations := [( KubeMaxAnnotation, "1.23.4")] })
    { Name := "csv", Annotations := [( KubeMaxAnnotation, "1.23.4")] } rfl rfl
    (Or.inr (Or.inr ⟨{ Major := 1, Minor := 23, Patch := 4, Pre := [], Build := [] }, rfl⟩))).2

set_option maxRecDepth 100000 in
/-- C7: the code at the key the specification names.  `KubeMaxAnnotation` is not
"operators.operatorframework.io/maxKubeVersion"; a bundle with deprecated APIs
that maps that key to "1.21.0" gets the not-informed error; and the text of that
error does not contain that key. -/
theorem kubeMaxAnnotation_is_not_the_specified_key :
    KubeMaxAnnotation ≠ "operators.operatorframework.io/maxKubeVersion" ∧
    validateK8sCommunityBundle quotePlain noObjects (warnDetector "removed")
        (some (bundleWith "b"
          { Name := "csv",
            Annotations := [("operators.operatorframework.io/maxKubeVersion", "1.21.0")] })) =
      some { Name := "b", Errors := [ErrInvalidCSV (notInformedError "removed") "csv"],
             Warnings := [] } ∧
    ¬ Contains (notInformedError "removed") "operators.operatorframework.io/maxKubeVersion" := by
  refine ⟨by decide, rfl, ?_⟩
  decide

/-- C8. The nil bundle and the bundle with a nil CSV short-circuit: the result
holds exactly one error (`Bundle is nil`, or `Bundle csv is nil` with the bundle's
name) and no warning, and is the same for every quoting, object listing,
detector and object list. -/
theorem nil_bundle_short_circuits (name : String) (objects : List K) :
    validateK8sCommunityBundle quote ObjectsToValidate Validate none =
      some { Name := "", Errors := [ErrInvalidBundle "Bundle is nil" none], Warnings := [] } ∧
    validateK8sCommunityBundle quote ObjectsToValidate Validate
        (some { Name := name, Objects := objects, CSV := none }) =
      some { Name := name, Errors := [ErrInvalidBundle "Bundle csv is nil" (some name)],
             Warnings := [] } :=
  ⟨validate_nil quote ObjectsToValidate Validate,
    validate_nil_csv quote ObjectsToValidate Validate _ rfl⟩

/-- C9. At most one diagnostic per invocation: for every bundle pointer, nil or
not, the validator returns a result whose errors and warnings number at most one
in total; and the check started with empty `errs` and `warns` either finds the
CSV nil and returns nothing, or returns with at most one error and no warning. -/
theorem at_most_one_diagnostic (bundle : Option (Bundle K)) (b : Bundle K) (m : String) :
    (∃ r : ManifestResult,
      validateK8sCommunityBundle quote ObjectsToValidate Validate bundle = some r ∧
      r.Errors.length + r.Warnings.length ≤ 1) ∧
    ((b.CSV = none ∧
        checkMaxKubeVersionAnnotation quote
          { bundle := b, deprecateAPIsMsg := m, errs := [], warns := [] } = none) ∨
      ∃ r : K8sCommunityBundleValidatorChecks K,
        checkMaxKubeVersionAnnotation quote
          { bundle := b, deprecateAPIsMsg := m, errs := [], warns := [] } = some r ∧
        r.errs.length ≤ 1 ∧ r.warns.length = 0) := by
  constructor
  · cases bundle with
    | none => exact ⟨_, validate_nil quote ObjectsToValidate Validate, by simp⟩
    | some b0 =>
      cases hcsv : b0.CSV with
      | none => exact ⟨_, validate_nil_csv quote ObjectsToValidate Validate b0 hcsv, by simp⟩
      | some csv =>
        obtain ⟨new, hlen, hv⟩ := validate_frame quote ObjectsToValidate Validate b0 csv hcsv
        exact ⟨_, hv, by simpa using hlen⟩
  · cases hcsv : b.CSV with
    | none => exact Or.inl ⟨rfl, check_nil quote _ hcsv⟩
    | some csv =>
      obtain ⟨new, hlen, hc⟩ := check_frame quote
        { bundle := b, deprecateAPIsMsg := m, errs := [], warns := [] } csv hcsv
      exact Or.inr ⟨_, hc, by simpa using hlen, rfl⟩

/-- C10. Warnings are never populated: the check either finds the CSV nil and
returns nothing, or returns the `warns` list it was given; and for every bundle
pointer, object listing and detector the validator returns a result whose
`Warnings` list is empty. -/
theorem warnings_never_populated (c : K8sCommunityBundleValidatorChecks K)
    (bundle : Option (Bundle K)) :
    ((c.bundle.CSV = none ∧ checkMaxKubeVersionAnnotation quote c = none) ∨
      ∃ r : K8sCommunityBundleValidatorChecks K,
        checkMaxKubeVersionAnnotation quote c = some r ∧ r.warns = c.warns) ∧
    ∃ r : ManifestResult,
      validateK8sCommunityBundle quote ObjectsToValidate Validate bundle = some r ∧
      r.Warnings = [] := by
  constructor
  · cases hcsv : c.bundle.CSV with
    | none => exact Or.inl ⟨rfl, check_nil quote c hcsv⟩
    | some csv =>
      obtain ⟨new, _, hc⟩ := check_frame quote c csv hcsv
      exact Or.inr ⟨_, hc, rfl⟩
  · cases bundle with
    | none => exact ⟨_, validate_nil quote ObjectsToValidate Validate, rfl⟩
    | some b0 =>
      cases hcsv : b0.CSV with
      | none => exact ⟨_, validate_nil_csv quote ObjectsToValidate Validate b0 hcsv, rfl⟩
      | some csv =>
        obtain ⟨new, _, hv⟩ := validate_frame quote ObjectsToValidate Validate b0 csv hcsv
        exact ⟨_, hv, rfl⟩

/-- C11. The last detector warning wins: for every list of detector results the
message the loop leaves is the detail of the last warning in iteration order
(results in order, warnings in order within each result) and the empty string
when no result carries a warning; replacing the errors of the results changes
nothing; and that message is the one the validator hands to the check. -/
theorem last_detector_warning_wins (results : List ManifestResult)
    (errs : ManifestResult → List Error) (name : String) (objects : List K)
    (csv : ClusterServiceVersion) :
    lastWarningDetail results "" =
      ((allWarnings results).getLast?.map fun w => w.Detail).getD "" ∧
    lastWarningDetail (results.map fun r => { r with Errors := errs r }) "" =
      lastWarningDetail results "" ∧
    validateK8sCommunityBundle quote ObjectsToValidate Validate
        (some { Name := name, Objects := objects, CSV := some csv }) =
      ( checkMaxKubeVersionAnnotation quote
        { bundle := { Name := name, Objects := objects, CSV := some csv },
          deprecateAPIsMsg :=
            (((allWarnings (Validate
                (ObjectsToValidate { Name := name, Objects := objects, CSV := some csv } ++
                  objects.map Object.other))).getLast?).map fun w => w.Detail).getD "",
          errs := [], warns := [] }).map
        fun r =>
          { Name := name,
            Errors := r.errs.map fun err => ErrInvalidCSV err csv.Name,
            Warnings := r.warns.map fun warn => WarnInvalidCSV warn csv.Name } := by
  refine ⟨lastWarningDetail_eq results "", ?_, ?_⟩
  · rw [lastWarningDetail_eq, lastWarningDetail_eq, allWarnings_map_errors]
  · rw [validate_some quote ObjectsToValidate Validate _ csv rfl, lastWarningDetail_eq]

/-- C14. The check does not alter its inputs: it either finds the CSV nil and
returns nothing, or returns a value whose bundle (the CSV's annotations
included), detector message and `warns` are those of its argument and whose
`errs` is the argument's `errs`, unchanged or with one element appended at the
end. -/
theorem check_leaves_inputs_alone (c : K8sCommunityBundleValidatorChecks K) :
    (c.bundle.CSV = none ∧ checkMaxKubeVersionAnnotation quote c = none) ∨
      ∃ r : K8sCommunityBundleValidatorChecks K,
        checkMaxKubeVersionAnnotation quote c = some r ∧
        r.bundle = c.bundle ∧ r.deprecateAPIsMsg = c.deprecateAPIsMsg ∧
        r.warns = c.warns ∧
        (r.errs = c.errs ∨ ∃ e : String, r.errs = c.errs ++ [e]) := by
  cases hcsv : c.bundle.CSV with
  | none => exact Or.inl ⟨rfl, check_nil quote c hcsv⟩
  | some csv =>
    obtain ⟨new, hlen, hc⟩ := check_frame quote c csv hcsv
    refine Or.inr ⟨_, hc, rfl, rfl, rfl, ?_⟩
    match new, hlen with
    | [], _ => exact Or.inl (by simp)
    | [e], _ => exact Or.inr ⟨e, rfl⟩

/-- C16. The detector message counts only as empty or not: for a bundle with a
CSV there is one branch, fixed by the annotation, that the check takes for both
of two non-empty detector messages; the errors are that branch's errors, built
with the one message or the other, so their numbers agree; there is no warning;
and the validator's results are the images of these errors. -/
theorem message_counts_only_as_nonempty (b : Bundle K) (csv : ClusterServiceVersion)
    (m1 m2 : String) (Validate2 : List (Object K) → List ManifestResult)
    (hcsv : b.CSV = some csv) (h1 : m1 ≠ "") (h2 : m2 ≠ "")
    (hdet1 : lastWarningDetail (Validate (ObjectsToValidate b ++ b.Objects.map Object.other)) ""
      = m1)
    (hdet2 : lastWarningDetail (Validate2 (ObjectsToValidate b ++ b.Objects.map Object.other)) ""
      = m2) :
    ∃ br : Branch,
      checkMaxKubeVersionAnnotation quote
          { bundle := b, deprecateAPIsMsg := m1, errs := [], warns := [] } =
        some { bundle := b, deprecateAPIsMsg := m1,
               errs := br.errs (mapIndex csv.Annotations KubeMaxAnnotation) m1, warns := [] } ∧
      checkMaxKubeVersionAnnotation quote
          { bundle := b, deprecateAPIsMsg := m2, errs := [], warns := [] } =
        some { bundle := b, deprecateAPIsMsg := m2,
               errs := br.errs (mapIndex csv.Annotations KubeMaxAnnotation) m2, warns := [] } ∧
      (br.errs (mapIndex csv.Annotations KubeMaxAnnotation) m1).length =
        (br.errs (mapIndex csv.Annotations KubeMaxAnnotation) m2).length ∧
      validateK8sCommunityBundle quote ObjectsToValidate Validate (some b) =
        some { Name := b.Name,
               Errors := (br.errs (mapIndex csv.Annotations KubeMaxAnnotation) m1).map
                 fun err => ErrInvalidCSV err csv.Name,
               Warnings := [] } ∧
      validateK8sCommunityBundle quote ObjectsToValidate Validate2 (some b) =
        some { Name := b.Name,
               Errors := (br.errs (mapIndex csv.Annotations KubeMaxAnnotation) m2).map
                 fun err => ErrInvalidCSV err csv.Name,
               Warnings := [] } := by
  obtain ⟨br, hbr⟩ := check_branch quote b csv hcsv
  refine ⟨br, hbr m1 h1, hbr m2 h2, ?_,
    validate_of_check quote ObjectsToValidate Validate b csv m1 _ hcsv hdet1 (hbr m1 h1),
    validate_of_check quote ObjectsToValidate Validate2 b csv m2 _ hcsv hdet2 (hbr m2 h2)⟩
  cases br <;> simp [Branch.errs]

/-- C16 at the annotation value "1.22.0" and the detector messages "removed" and
"gone": both results hold the too-high error, each with its own message. -/
theorem message_counts_only_as_nonempty_witness :
    ∃ br : Branch,
      validateK8sCommunityBundle quotePlain noObjects (warnDetector "removed")
          (some (bundleWith "b"
            { Name := "csv", Annotations := [( KubeMaxAnnotation, "1.22.0")] })) =
        some { Name := "b",
               Errors := (br.errs "1.22.0" "removed").map fun err => ErrInvalidCSV err "csv",
               Warnings := [] } ∧
      validateK8sCommunityBundle quotePlain noObjects (warnDetector "gone")
          (some (bundleWith "b"
            { Name := "csv", Annotations := [( KubeMaxAnnotation, "1.22.0")] })) =
        some { Name := "b",
               Errors := (br.errs "1.22.0" "gone").map fun err => ErrInvalidCSV err "csv",
               Warnings := [] } := by
  obtain ⟨br, _, _, _, hv1, hv2⟩ :=
    message_counts_only_as_nonempty quotePlain noObjects (warnDetector "removed")
      (bundleWith "b" { Name := "csv", Annotations := [( KubeMaxAnnotation, "1.22.0")] })
      { Name := "csv", Annotations := [( KubeMaxAnnotation, "1.22.0")] } "removed" "gone"
      (warnDetector "gone") rfl (by decide) (by decide) rfl rfl
  exact ⟨br, hv1, hv2⟩

/-- C18. Dispatch over object kinds: for every argument list the dispatcher
returns one result per bundle pointer among the arguments, in argument order,
each the validator's result for that pointer; arguments of another kind add
nothing, and a list of such arguments alone gives the empty result list. -/
theorem dispatch_over_object_kinds (objs : List (Object K)) (others : List K) :
    (∃ results : List ManifestResult,
      k8sCommunityBundleValidator quote ObjectsToValidate Validate objs = some results ∧
      results.length = (bundlePointers objs).length ∧
      results.map some =
        (bundlePointers objs).map
          (validateK8sCommunityBundle quote ObjectsToValidate Validate)) ∧
    bundlePointers (others.map Object.other) = ([] : List (Option (Bundle K))) ∧
    k8sCommunityBundleValidator quote ObjectsToValidate Validate (others.map Object.other) =
      some [] := by
  refine ⟨?_, ?_, dispatch_others quote ObjectsToValidate Validate others⟩
  · obtain ⟨results, hk, hmap⟩ := dispatch_eq quote ObjectsToValidate Validate objs
    refine ⟨results, hk, ?_, hmap⟩
    have hlen := congrArg List.length hmap
    simpa using hlen
  · induction others with
    | nil => rfl
    | cons x xs ih => simpa [bundlePointers] using ih

/-- C12, as stated, fails: "18446744073709551616" and "0" are decimal numerals
without leading zeroes, yet the value "18446744073709551616.0" is not accepted;
with deprecated APIs present the result holds the invalid-value error. -/
theorem large_numeral_is_not_accepted :
    Numeral "18446744073709551616".data 18446744073709551616 ∧
    Numeral "0".data 0 ∧
    ParseTolerant quotePlain "18446744073709551616.0" =
      .error "strconv.ParseUint: parsing \"18446744073709551616\": value out of range" ∧
    validateK8sCommunityBundle quotePlain noObjects (warnDetector "removed")
        (some (bundleWith "b"
          { Name := "csv",
            Annotations := [( KubeMaxAnnotation, "18446744073709551616.0")] })) =
      some { Name := "b",
             Errors := [ErrInvalidCSV (invalidValueError "18446744073709551616.0"
               "strconv.ParseUint: parsing \"18446744073709551616\": value out of range")
               "csv"],
             Warnings := [] } :=
  ⟨⟨by decide, by decide, by decide, by decide⟩, numeral_zero, rfl, rfl⟩

/-- C12, amended. For decimal numerals `M` and `m` without leading zeroes the
value `M.m` parses exactly as `M.m.0` does; it is accepted, as the version
M.m.0, when both numbers are below 2^64 and rejected when one is not; with
deprecated APIs present the results for `M.m` and for `M.m.0` hold the same
number of errors, at most one, and no warning; "1.22" gives the too-high error
and "1.21" passes. -/
theorem missing_patch_parses_as_zero (M m : List Char) (vM vm : Nat) (b1 b2 : Bundle K)
    (csv1 csv2 : ClusterServiceVersion) (hM : Numeral M vM) (hm : Numeral m vm)
    (hcsv1 : b1.CSV = some csv1) (hcsv2 : b2.CSV = some csv2)
    (ha1 : mapIndex csv1.Annotations KubeMaxAnnotation = ⟨M ++ '.' :: m⟩)
    (ha2 : mapIndex csv2.Annotations KubeMaxAnnotation = ⟨M ++ '.' :: (m ++ '.' :: ['0'])⟩)
    (hdet1 : lastWarningDetail
      (Validate (ObjectsToValidate b1 ++ b1.Objects.map Object.other)) "" ≠ "")
    (hdet2 : lastWarningDetail
      (Validate (ObjectsToValidate b2 ++ b2.Objects.map Object.other)) "" ≠ "") :
    ParseTolerant quote ⟨M ++ '.' :: m⟩ =
      ParseTolerant quote ⟨M ++ '.' :: (m ++ '.' :: ['0'])⟩ ∧
    (vM < 2 ^ 64 → vm < 2 ^ 64 →
      ParseTolerant quote ⟨M ++ '.' :: m⟩ =
        .ok { Major := vM, Minor := vm, Patch := 0, Pre := [], Build := [] }) ∧
    (2 ^ 64 ≤ vM ∨ 2 ^ 64 ≤ vm → ∃ e, ParseTolerant quote ⟨M ++ '.' :: m⟩ = .error e) ∧
    (∃ r1 r2 : ManifestResult,
      validateK8sCommunityBundle quote ObjectsToValidate Validate (some b1) = some r1 ∧
      validateK8sCommunityBundle quote ObjectsToValidate Validate (some b2) = some r2 ∧
      r1.Errors.length = r2.Errors.length ∧ r1.Errors.length ≤ 1 ∧
      r1.Warnings = [] ∧ r2.Warnings = []) ∧
    validateK8sCommunityBundle quote noObjects (warnDetector "removed")
        (some (bundleWith "b" { Name := "csv", Annotations := [( KubeMaxAnnotation, "1.22")] })) =
      some { Name := "b", Errors := [ErrInvalidCSV (tooHighError "1.22" "removed") "csv"],
             Warnings := [] } ∧
    validateK8sCommunityBundle quote noObjects (warnDetector "removed")
        (some (bundleWith "b" { Name := "csv", Annotations := [( KubeMaxAnnotation, "1.21")] })) =
      some { Name := "b", Errors := [], Warnings := [] } := by
  have heq : ParseTolerant quote ⟨M ++ '.' :: m⟩ =
      ParseTolerant quote ⟨M ++ '.' :: (m ++ '.' :: ['0'])⟩ := by
    rw [parseTolerant_two quote M m hM.2.1 hm.2.1 hM.1 hm.1,
      parseTolerant_three quote M m ['0'] hM.2.1 hm.2.1 (by decide) hM.1 (by simp)]
  have htwo := parseTolerant_two_numerals quote M m vM vm hM hm
  refine ⟨heq, htwo.1, htwo.2, ?_, rfl, rfl⟩
  rcases except_cases (ParseTolerant quote ⟨M ++ '.' :: m⟩) with ⟨v, hv⟩ | ⟨e, he⟩
  · have hv1 : ParseTolerant quote (mapIndex csv1.Annotations KubeMaxAnnotation) = .ok v := by
      rw [ha1, hv]
    have hv2 : ParseTolerant quote (mapIndex csv2.Annotations KubeMaxAnnotation) = .ok v := by
      rw [ha2, ← heq, hv]
    refine ⟨_, _, validate_parsed quote ObjectsToValidate Validate b1 csv1 v hcsv1 hdet1 hv1,
      validate_parsed quote ObjectsToValidate Validate b2 csv2 v hcsv2 hdet2 hv2, ?_, ?_,
      rfl, rfl⟩
    · split_ifs <;> rfl
    · split_ifs <;> simp
  · have he1 : ParseTolerant quote (mapIndex csv1.Annotations KubeMaxAnnotation) = .error e := by
      rw [ha1, he]
    have he2 : ParseTolerant quote (mapIndex csv2.Annotations KubeMaxAnnotation) = .error e := by
      rw [ha2, ← heq, he]
    have hne1 : mapIndex csv1.Annotations KubeMaxAnnotation ≠ "" := by
      rw [ha1]
      exact mk_ne_empty '.' M m
    have hne2 : mapIndex csv2.Annotations KubeMaxAnnotation ≠ "" := by
      rw [ha2]
      exact mk_ne_empty '.' M _
    exact ⟨_, _,
      validate_unparsed quote ObjectsToValidate Validate b1 csv1 e hcsv1 hne1 he1,
      validate_unparsed quote ObjectsToValidate Validate b2 csv2 e hcsv2 hne2 he2,
      rfl, by simp, rfl, rfl⟩

/-- C12, amended, at the values "1.22" and "1.22.0". -/
theorem missing_patch_parses_as_zero_witness :
    ParseTolerant quotePlain "1.22" = ParseTolerant quotePlain "1.22.0" ∧
    ParseTolerant quotePlain "1.22" =
      .ok { Major := 1, Minor := 22, Patch := 0, Pre := [], Build := [] } :=
  have h := missing_patch_parses_as_zero quotePlain noObjects (warnDetector "removed")
    "1".data "22".data 1 22
    (bundleWith "b" { Name := "csv", Annotations := [( KubeMaxAnnotation, "1.22")] })
    (bundleWith "b" { Name := "csv", Annotations := [( KubeMaxAnnotation, "1.22.0")] })
    { Name := "csv", Annotations := [( KubeMaxAnnotation, "1.22")] }
    { Name := "csv", Annotations := [( KubeMaxAnnotation, "1.22.0")] }
    ⟨by decide, by decide, by decide, by decide⟩ ⟨by decide, by decide, by decide, by decide⟩
    rfl rfl rfl rfl (by decide) (by decide)
  ⟨h.1, h.2.1 (by decide) (by decide)⟩

/-- C13, as stated, fails: "1.22.0-alpha" and "1.22.0" both parse, to versions
with the same major, minor and patch numbers, and with deprecated APIs present
the first passes while the second gets the too-high error. -/
theorem prerelease_changes_the_verdict :
    ParseTolerant quotePlain "1.22.0-alpha" =
      .ok { Major := 1, Minor := 22, Patch := 0,
            Pre := [{ VersionStr := "alpha", VersionNum := 0, IsNum := false }], Build := [] } ∧
    ParseTolerant quotePlain "1.22.0" =
      .ok { Major := 1, Minor := 22, Patch := 0, Pre := [], Build := [] } ∧
    validateK8sCommunityBundle quotePlain noObjects (warnDetector "removed")
        (some (bundleWith "b"
          { Name := "csv", Annotations := [( KubeMaxAnnotation, "1.22.0-alpha")] })) =
      some { Name := "b", Errors := [], Warnings := [] } ∧
    validateK8sCommunityBundle quotePlain noObjects (warnDetector "removed")
        (some (bundleWith "b"
          { Name := "csv", Annotations := [( KubeMaxAnnotation, "1.22.0")] })) =
      some { Name := "b", Errors := [ErrInvalidCSV (tooHighError "1.22.0" "removed") "csv"],
             Warnings := [] } :=
  ⟨rfl, rfl, rfl, rfl⟩

/-- C13, amended. With deprecated APIs present, two annotation values that parse
to versions with the same major, minor and patch numbers get results with the
same number of errors whenever both or neither carry a pre-release (so build
metadata never matters) and whenever major.minor.patch is not 1.22.0; at 1.22.0
the value passes exactly when it carries a pre-release. -/
theorem same_numbers_same_verdict (b1 b2 : Bundle K) (csv1 csv2 : ClusterServiceVersion)
    (v1 v2 : Version) (hcsv1 : b1.CSV = some csv1) (hcsv2 : b2.CSV = some csv2)
    (hv1 : ParseTolerant quote (mapIndex csv1.Annotations KubeMaxAnnotation) = .ok v1)
    (hv2 : ParseTolerant quote (mapIndex csv2.Annotations KubeMaxAnnotation) = .ok v2)
    (hmajor : v1.Major = v2.Major) (hminor : v1.Minor = v2.Minor)
    (hpatch : v1.Patch = v2.Patch)
    (hdet1 : lastWarningDetail
      (Validate (ObjectsToValidate b1 ++ b1.Objects.map Object.other)) "" ≠ "")
    (hdet2 : lastWarningDetail
      (Validate (ObjectsToValidate b2 ++ b2.Objects.map Object.other)) "" ≠ "") :
    ∃ r1 r2 : ManifestResult,
      validateK8sCommunityBundle quote ObjectsToValidate Validate (some b1) = some r1 ∧
      validateK8sCommunityBundle quote ObjectsToValidate Validate (some b2) = some r2 ∧
      (((v1.Pre = [] ↔ v2.Pre = []) ∨ ¬ (v1.Major = 1 ∧ v1.Minor = 22 ∧ v1.Patch = 0)) →
        r1.Errors.length = r2.Errors.length) ∧
      (v1.Major = 1 ∧ v1.Minor = 22 ∧ v1.Patch = 0 → (r1.Errors = [] ↔ v1.Pre ≠ [])) := by
  refine ⟨_, _, validate_parsed quote ObjectsToValidate Validate b1 csv1 v1 hcsv1 hdet1 hv1,
    validate_parsed quote ObjectsToValidate Validate b2 csv2 v2 hcsv2 hdet2 hv2, ?_, ?_⟩
  · intro h
    have hiff : v1.GE { Major := 1, Minor := 22, Patch := 0, Pre := [], Build := [] } = true ↔
        v2.GE { Major := 1, Minor := 22, Patch := 0, Pre := [], Build := [] } = true := by
      rw [ge_removal_iff, ge_removal_iff, ← hmajor, ← hminor, ← hpatch]
      rcases h with h | h
      · rw [h]
      · constructor
        · rintro (h1 | h1 | h1 | h1)
          · exact Or.inl h1
          · exact Or.inr (Or.inl h1)
          · exact Or.inr (Or.inr (Or.inl h1))
          · exact absurd ⟨h1.1, h1.2.1, h1.2.2.1⟩ h
        · rintro (h1 | h1 | h1 | h1)
          · exact Or.inl h1
          · exact Or.inr (Or.inl h1)
          · exact Or.inr (Or.inr (Or.inl h1))
          · exact absurd ⟨h1.1, h1.2.1, h1.2.2.1⟩ h
    by_cases hge : v1.GE { Major := 1, Minor := 22, Patch := 0, Pre := [], Build := [] } = true
    · rw [if_pos hge, if_pos (hiff.mp hge)]
      rfl
    · rw [if_neg hge, if_neg (fun h2 => hge (hiff.mpr h2))]
  · rintro ⟨hM, hm, hp⟩
    have hiff := ge_removal_iff v1
    rw [hM, hm, hp] at hiff
    by_cases hge : v1.GE { Major := 1, Minor := 22, Patch := 0, Pre := [], Build := [] } = true
    · rw [if_pos hge]
      have hpre : v1.Pre = [] := by
        rcases hiff.mp hge with h | h | h | h
        · omega
        · omega
        · omega
        · exact h.2.2.2
      simp [hpre]
    · rw [if_neg hge]
      have hpre : v1.Pre ≠ [] := fun h => hge (hiff.mpr (Or.inr (Or.inr (Or.inr ⟨rfl, rfl, rfl, h⟩))))
      simp [hpre]

/-- C13, amended, at the values "1.21.0+build" and "1.21.0": both pass. -/
theorem same_numbers_same_verdict_witness :
    ∃ r1 r2 : ManifestResult,
      validateK8sCommunityBundle quotePlain noObjects (warnDetector "removed")
        (some (bundleWith "b"
          { Name := "csv", Annotations := [( KubeMaxAnnotation, "1.21.0+build")] })) = some r1 ∧
      validateK8sCommunityBundle quotePlain noObjects (warnDetector "removed")
        (some (bundleWith "b"
          { Name := "csv", Annotations := [( KubeMaxAnnotation, "1.21.0")] })) = some r2 ∧
      r1.Errors.length = r2.Errors.length := by
  obtain ⟨r1, r2, h1, h2, hlen, _⟩ :=
    same_numbers_same_verdict quotePlain noObjects (warnDetector "removed")
      (bundleWith "b" { Name := "csv", Annotations := [( KubeMaxAnnotation, "1.21.0+build")] })
      (bundleWith "b" { Name := "csv", Annotations := [( KubeMaxAnnotation, "1.21.0")] })
      { Name := "csv", Annotations := [( KubeMaxAnnotation, "1.21.0+build")] }
      { Name := "csv", Annotations := [( KubeMaxAnnotation, "1.21.0")] }
      { Major := 1, Minor := 21, Patch := 0, Pre := [], Build := ["build"] }
      { Major := 1, Minor := 21, Patch := 0, Pre := [], Build := [] }
      rfl rfl rfl rfl rfl rfl rfl (by decide) (by decide)
  exact ⟨r1, r2, h1, h2, hlen (Or.inl Iff.rfl)⟩

/-- C15, as stated, fails: with deprecated APIs present "1.3.0" passes, yet
"1.3.18446744073709551616", which differs in the patch number only, and
"1.03.0", whose minor number is written with a leading zero, get the
invalid-value error although the major number is 1 and the minor number 3. -/
theorem large_patch_changes_the_verdict :
    validateK8sCommunityBundle quotePlain noObjects (warnDetector "removed")
        (some (bundleWith "b"
          { Name := "csv", Annotations := [( KubeMaxAnnotation, "1.3.0")] })) =
      some { Name := "b", Errors := [], Warnings := [] } ∧
    validateK8sCommunityBundle quotePlain noObjects (warnDetector "removed")
        (some (bundleWith "b"
          { Name := "csv",
            Annotations := [( KubeMaxAnnotation, "1.3.18446744073709551616")] })) =
      some { Name := "b",
             Errors := [ErrInvalidCSV (invalidValueError "1.3.18446744073709551616"
               "strconv.ParseUint: parsing \"18446744073709551616\": value out of range")
               "csv"],
             Warnings := [] } ∧
    validateK8sCommunityBundle quotePlain noObjects (warnDetector "removed")
        (some (bundleWith "b"
          { Name := "csv", Annotations := [( KubeMaxAnnotation, "1.03.0")] })) =
      some { Name := "b",
             Errors := [ErrInvalidCSV (invalidValueError "1.03.0"
               "Minor number must not contain leading zeroes \"03\"") "csv"],
             Warnings := [] } :=
  ⟨rfl, rfl, rfl⟩

/-- C15, amended. With deprecated APIs present, for an annotation value `M.m.p`
whose three components are decimal numerals without leading zeroes and below
2^64, the result holds an error exactly when M > 1, or M = 1 and m ≥ 22, whatever
the patch number; there is never a warning; "1.3.0" and "1.9.5" pass although
they sort after "1.22.0" as strings. -/
theorem numeric_version_ordering (M m p : List Char) (vM vm vp : Nat) (b : Bundle K)
    (csv : ClusterServiceVersion) (hM : Numeral M vM) (hm : Numeral m vm) (hp : Numeral p vp)
    (hvM : vM < 2 ^ 64) (hvm : vm < 2 ^ 64) (hvp : vp < 2 ^ 64) (hcsv : b.CSV = some csv)
    (ha : mapIndex csv.Annotations KubeMaxAnnotation = ⟨M ++ '.' :: (m ++ '.' :: p)⟩)
    (hdet : lastWarningDetail (Validate (ObjectsToValidate b ++ b.Objects.map Object.other)) ""
      ≠ "") :
    (∃ r : ManifestResult,
      validateK8sCommunityBundle quote ObjectsToValidate Validate (some b) = some r ∧
      r.Warnings = [] ∧ r.Errors.length ≤ 1 ∧
      (r.Errors ≠ [] ↔ vM > 1 ∨ (vM = 1 ∧ vm ≥ 22))) ∧
    validateK8sCommunityBundle quote noObjects (warnDetector "removed")
        (some (bundleWith "b"
          { Name := "csv", Annotations := [( KubeMaxAnnotation, "1.3.0")] })) =
      some { Name := "b", Errors := [], Warnings := [] } ∧
    validateK8sCommunityBundle quote noObjects (warnDetector "removed")
        (some (bundleWith "b"
          { Name := "csv", Annotations := [( KubeMaxAnnotation, "1.9.5")] })) =
      some { Name := "b", Errors := [], Warnings := [] } ∧
    "1.22.0".data < "1.3.0".data ∧ "1.22.0".data < "1.9.5".data := by
  refine ⟨?_, rfl, rfl, by decide, by decide⟩
  have hv : ParseTolerant quote (mapIndex csv.Annotations KubeMaxAnnotation) =
      .ok { Major := vM, Minor := vm, Patch := vp, Pre := [], Build := [] } := by
    rw [ha]
    exact parseTolerant_numerals quote M m p vM vm vp hM hm hp hvM hvm hvp
  refine ⟨_, validate_parsed quote ObjectsToValidate Validate b csv _ hcsv hdet hv, rfl, ?_, ?_⟩
  · split_ifs <;> simp
  · have hiff := ge_removal_iff
      { Major := vM, Minor := vm, Patch := vp, Pre := [], Build := [] }
    simp only [and_true] at hiff
    by_cases hge : Version.GE { Major := vM, Minor := vm, Patch := vp, Pre := [], Build := [] }
        { Major := 1, Minor := 22, Patch := 0, Pre := [], Build := [] } = true
    · rw [if_pos hge]
      have h := hiff.mp hge
      constructor
      · intro _
        omega
      · intro _
        simp
    · rw [if_neg hge]
      have h : ¬ (vM > 1 ∨ (vM = 1 ∧ vm > 22) ∨ (vM = 1 ∧ vm = 22 ∧ vp > 0) ∨
          (vM = 1 ∧ vm = 22 ∧ vp = 0)) := fun h2 => hge (hiff.mpr h2)
      constructor
      · intro h2
        exact absurd rfl h2
      · intro h2
        omega

/-- C15, amended, at the value "1.9.5". -/
theorem numeric_version_ordering_witness :
    ∃ r : ManifestResult,
      validateK8sCommunityBundle quotePlain noObjects (warnDetector "removed")
        (some (bundleWith "b"
          { Name := "csv", Annotations := [( KubeMaxAnnotation, "1.9.5")] })) = some r ∧
      r.Warnings = [] ∧ r.Errors.length ≤ 1 ∧
      (r.Errors ≠ [] ↔ 1 > 1 ∨ (1 = 1 ∧ 9 ≥ 22)) :=
  (numeric_version_ordering quotePlain noObjects (warnDetector "removed")
    "1".data "9".data "5".data 1 9 5
    (bundleWith "b" { Name := "csv", Annotations := [( KubeMaxAnnotation, "1.9.5")] })
    { Name := "csv", Annotations := [( KubeMaxAnnotation, "1.9.5")] }
    ⟨by decide, by decide, by decide, by decide⟩ ⟨by decide, by decide, by decide, by decide⟩
    ⟨by decide, by decide, by decide, by decide⟩ (by decide) (by decide) (by decide)
    rfl rfl (by decide)).1

/-- C17, as stated, fails: for a bundle with CSV "csv", no annotation and the
detector message "removed", the one error of the result has the empty string as
its value, not the CSV's name, and its detail is the check's message preceded by
"(csv) ", not the message itself. -/
theorem error_value_is_not_the_csv_name :
    validateK8sCommunityBundle quotePlain noObjects (warnDetector "removed")
        (some (bundleWith "b" { Name := "csv", Annotations := [] })) =
      some { Name := "b",
             Errors := [{ ErrType := ErrorInvalidCSV, Level := LevelError, Field := "",
                          BadValue := some "",
                          Detail := "(csv) " ++ notInformedError "removed" }],
             Warnings := [] } ∧
    (some "" : Option String) ≠ some "csv" ∧
    "(csv) " ++ notInformedError "removed" ≠ notInformedError "removed" :=
  ⟨rfl, by decide, by decide⟩

/-- C17, amended. For every bundle with a CSV the validator returns a result
whose name is the bundle's name and whose errors are, in the same order, the
errors `ErrInvalidCSV` builds from the messages of the annotation check and the
CSV's name: each is an invalid-CSV error of level `Error` whose value is the
empty string and whose detail is the CSV's name in parentheses, a blank, and the
check's message. -/
theorem diagnostics_carry_the_names (name : String) (objects : List K)
    (csv : ClusterServiceVersion) :
    ∃ (r : ManifestResult) (checks : K8sCommunityBundleValidatorChecks K),
      checkMaxKubeVersionAnnotation quote
          { bundle := { Name := name, Objects := objects, CSV := some csv },
            deprecateAPIsMsg :=
              lastWarningDetail (Validate
                (ObjectsToValidate { Name := name, Objects := objects, CSV := some csv } ++
                  objects.map Object.other)) "",
            errs := [], warns := [] } = some checks ∧
      validateK8sCommunityBundle quote ObjectsToValidate Validate
          (some { Name := name, Objects := objects, CSV := some csv }) = some r ∧
      r.Name = name ∧
      r.Errors = checks.errs.map (fun err => ErrInvalidCSV err csv.GetName) ∧
      r.Errors =
        checks.errs.map (fun err =>
          { ErrType := ErrorInvalidCSV, Level := LevelError, Field := "", BadValue := some "",
            Detail := "(" ++ csv.Name ++ ") " ++ err }) := by
  obtain ⟨new, _, hc⟩ := check_frame quote
    { bundle := { Name := name, Objects := objects, CSV := some csv },
      deprecateAPIsMsg :=
        lastWarningDetail (Validate
          (ObjectsToValidate { Name := name, Objects := objects, CSV := some csv } ++
            objects.map Object.other)) "",
      errs := [], warns := [] } csv rfl
  refine ⟨{ Name := name, Errors := new.map fun err => ErrInvalidCSV err csv.Name,
            Warnings := [] }, _, hc, ?_, rfl, ?_, ?_⟩
  · rw [validate_some quote ObjectsToValidate Validate _ csv rfl, hc]
    simp
  · simp [ClusterServiceVersion.GetName]
  · simp [ErrInvalidCSV, invalidCSV]

end Claims

end BundleValidator
